import Mathlib

/-!
# contact_me_back: the handlers of `main.go`, embedded and verified

A shallow embedding of `createContact` and `listContacts` (file `main.go`).

* Go's `int` is the 64-bit two's-complement integer: values are `Int`s and every
  arithmetic operation of the source is followed by `wrap64`.
* The collaborators that `main.go` only calls are modelled next to the handlers:
  `strconv.Atoi`, gin's `DefaultQuery`, `time.Parse` for the two layouts the source
  passes to it, `time.Now` (a clock handed in as an argument), the JSON encoding of a
  slice (a nil slice is encoded as `null`), and the database behind `database/sql`
  (a record of operations over an explicit state, with an in-memory table as the
  instance that follows the SQL text of the statements and hands each `created_at` to
  `rows.Scan` as the driver delivers it).
* `log.Printf` calls write to the process log only and are left out.
-/

namespace ContactMeBack

/-! ## Machine integers -/

/-- Largest value of Go's `int` on a 64-bit platform. -/
def maxInt : Int := 9223372036854775807

/-- Smallest value of Go's `int` on a 64-bit platform. -/
def minInt : Int := -9223372036854775808

/-- Two's-complement wrap-around of a mathematical integer into the 64-bit `int` range. -/
def wrap64 (x : Int) : Int := (x + 9223372036854775808) % 18446744073709551616 - 9223372036854775808

/-- Go's `a * b` on `int`. -/
def mulInt (a b : Int) : Int := wrap64 (a * b)

/-- Go's `a + b` on `int`. -/
def addInt (a b : Int) : Int := wrap64 (a + b)

/-- Go's `a - b` on `int`. -/
def subInt (a b : Int) : Int := wrap64 (a - b)

/-- Go's `a / b` on `int` for `b ≠ 0`: the quotient truncated toward zero. -/
def divInt (a b : Int) : Int := wrap64 (Int.tdiv a b)

/-! ## `strconv.Atoi` -/

/-- Whether the character is one of `0` .. `9`. -/
def isDigitChar (c : Char) : Bool := decide (48 ≤ c.toNat) && decide (c.toNat ≤ 57)

/-- Value of a run of decimal digits, most significant first, continuing from `acc`;
`none` when a character is not a digit. -/
def digitsValue : List Char → Nat → Option Nat
  | [], acc => some acc
  | c :: cs, acc => if isDigitChar c then digitsValue cs (acc * 10 + (c.toNat - 48)) else none

/-- The characters of `strconv.Atoi`: an optional sign, then at least one decimal digit;
the result is `none` (Go: `err != nil`) on a syntax error and when the value does not
fit the 64-bit `int`. -/
def atoiChars : List Char → Option Int
  | [] => none
  | c :: cs =>
    let neg := c == '-'
    let ds := if c == '-' || c == '+' then cs else c :: cs
    match ds with
    | [] => none
    | d :: ds1 =>
      match digitsValue (d :: ds1) 0 with
      | none => none
      | some n =>
        let v : Int := if neg then -(n : Int) else (n : Int)
        if minInt ≤ v ∧ v ≤ maxInt then some v else none

/-- Go's `strconv.Atoi`; `none` stands for a non-nil error. -/
def Atoi (s : String) : Option Int := atoiChars s.data

/-! ## Query parameters and pagination of `listContacts` -/

/-- gin's `c.DefaultQuery(key, def)`: the value of the key when the query has it,
otherwise the default. The argument is the looked-up value, `none` when the key is absent. -/
def DefaultQuery (value : Option String) (defaultValue : String) : String :=
  match value with
  | some v => v
  | none => defaultValue

/-- Lines 134 and 137-140 of `listContacts`: the effective page. -/
def effectivePage (pageQ : Option String) : Int :=
  let pageStr := DefaultQuery pageQ "1"
  match Atoi pageStr with
  | none => 1
  | some page => if page < 1 then 1 else page

/-- Lines 135 and 142-145 of `listContacts`: the effective limit. -/
def effectiveLimit (limitQ : Option String) : Int :=
  let limitStr := DefaultQuery limitQ "10"
  match Atoi limitStr with
  | none => 10
  | some limit => if limit < 1 ∨ limit > 100 then 10 else limit

/-- Line 147 of `listContacts`: `offset := (page - 1) * limit` on `int`. -/
def offsetOf (page limit : Int) : Int := mulInt (subInt page 1) limit

/-- Line 203 of `listContacts`: `totalPages := (total + limit - 1) / limit` on `int`. -/
def totalPagesOf (total limit : Int) : Int := divInt (subInt (addInt total limit) 1) limit

/-! ## `time.Parse` for the two layouts of `listContacts` -/

/-- An instant, as Go's `time.Time` compares it (`Before`, `After`, `Equal`): the
nanoseconds elapsed since 0000-01-01 00:00:00 UTC of the proleptic Gregorian calendar.
The location a `time.Time` also carries does not take part in comparisons. -/
structure Time where
  nanos : Int
  deriving DecidableEq, Repr

/-- Go's `isLeap`. -/
def isLeap (year : Nat) : Bool := year % 4 == 0 && (year % 100 != 0 || year % 400 == 0)

/-- Go's `daysIn`: the number of days of the month in the year. -/
def daysIn (month year : Nat) : Nat :=
  if month = 2 then (if isLeap year then 29 else 28)
  else if month = 4 ∨ month = 6 ∨ month = 9 ∨ month = 11 then 30
  else 31

/-- Days of a common year before the first day of the month (Go's `daysBefore` table). -/
def daysBefore (month : Nat) : Nat :=
  match month with
  | 1 => 0
  | 2 => 31
  | 3 => 59
  | 4 => 90
  | 5 => 120
  | 6 => 151
  | 7 => 181
  | 8 => 212
  | 9 => 243
  | 10 => 273
  | 11 => 304
  | _ => 334

/-- Days from 0000-01-01 to the first day of the year (year 0 is a leap year). -/
def daysBeforeYear (year : Nat) : Nat :=
  365 * year + (year + 3) / 4 - (year + 99) / 100 + (year + 399) / 400

/-- Days from 0000-01-01 to the given date. -/
def daysSinceZero (year month day : Nat) : Nat :=
  daysBeforeYear year + daysBefore month + (if isLeap year && decide (3 ≤ month) then 1 else 0)
    + (day - 1)

/-- Go's `time.Date` for fields that are in range, at the given offset east of UTC in
seconds. -/
def Date (year month day hour min sec nsec : Nat) (zoneOffset : Int) : Time :=
  ⟨(((daysSinceZero year month day : Nat) : Int) * 86400 + hour * 3600 + min * 60 + sec - zoneOffset)
      * 1000000000 + nsec⟩

/-- Go's `getnum`: one or two leading digits, exactly two when `fixed`. -/
def getnum : List Char → Bool → Option (Nat × List Char)
  | [], _ => none
  | [c0], fixed =>
    if !isDigitChar c0 then none
    else if fixed then none
    else some (c0.toNat - 48, [])
  | c0 :: c1 :: rest, fixed =>
    if !isDigitChar c0 then none
    else if !isDigitChar c1 then (if fixed then none else some (c0.toNat - 48, c1 :: rest))
    else some ((c0.toNat - 48) * 10 + (c1.toNat - 48), rest)

/-- Go's `cutspace`: drop the leading spaces. -/
def cutspace : List Char → List Char
  | [] => []
  | c :: cs => if c == ' ' then cutspace cs else c :: cs

/-- Go's `skip value prefix` of package time: the value must start with the prefix, a run
of spaces in the prefix standing for any run of spaces in the value. The flag says that
the previous prefix character belonged to a run of spaces already dealt with. -/
def skipAux : Bool → List Char → List Char → Option (List Char)
  | _, value, [] => some value
  | afterSpace, value, p :: ps =>
    if p == ' ' then
      if afterSpace then skipAux true value ps
      else
        match value with
        | [] => skipAux true [] ps
        | v :: vs => if v != ' ' then none else skipAux true (cutspace (v :: vs)) ps
    else
      match value with
      | [] => none
      | v :: vs => if v != p then none else skipAux false vs ps

/-- Go's `skip`. -/
def skip (value pre : List Char) : Option (List Char) := skipAux false value pre

/-- The `stdLongYear` case of Go's `parse`: exactly four digits. -/
def parseLongYear : List Char → Option (Nat × List Char)
  | a :: b :: c :: d :: rest =>
    if isDigitChar a && isDigitChar b && isDigitChar c && isDigitChar d then
      some ((a.toNat - 48) * 1000 + (b.toNat - 48) * 100 + (c.toNat - 48) * 10 + (d.toNat - 48), rest)
    else none
  | _ => none

/-- The leading digits of the list and what follows them. -/
def spanDigits : List Char → List Char × List Char
  | [] => ([], [])
  | c :: cs =>
    if isDigitChar c then ((c :: (spanDigits cs).1), (spanDigits cs).2) else ([], c :: cs)

/-- Value of at most nine fractional digits scaled to nanoseconds (Go's
`parseNanoseconds`, which keeps the first nine digits and drops the rest). -/
def nanosOfDigits (ds : List Char) : Nat :=
  let kept := ds.take 9
  (kept.foldl (fun acc c => acc * 10 + (c.toNat - 48)) 0) * 10 ^ (9 - kept.length)

/-- The fractional second that Go's `parse` accepts right after the seconds field even
though the layout has none: a period or comma followed by at least one digit. -/
def parseFraction : List Char → Nat × List Char
  | c :: d :: rest =>
    if (c == '.' || c == ',') && isDigitChar d then
      (nanosOfDigits (spanDigits (d :: rest)).1, (spanDigits (d :: rest)).2)
    else (0, c :: d :: rest)
  | value => (0, value)

/-- The `stdISO8601ColonTZ` case (`Z07:00`) of Go's `parse`: `Z`, or a sign, two digits,
a colon and two digits; the result is the offset east of UTC in seconds. -/
def parseZone : List Char → Option (Int × List Char)
  | [] => none
  | c :: cs =>
    if c == 'Z' then some (0, cs)
    else
      match c :: cs with
      | sign :: h1 :: h2 :: colon :: m1 :: m2 :: rest =>
        if colon != ':' then none
        else
          match getnum [h1, h2] true, getnum [m1, m2] true with
          | some (hr, _), some (mm, _) =>
            if 24 < hr ∨ 60 < mm then none
            else if sign == '+' then some ((((hr * 60 + mm) * 60 : Nat) : Int), rest)
            else if sign == '-' then some (-(((hr * 60 + mm) * 60 : Nat) : Int), rest)
            else none
          | _, _ => none
      | _ => none

/-- The layouts `listContacts` passes to `time.Parse`. -/
inductive Layout where
  | dateTime
  | rfc3339
  deriving DecidableEq, Repr

/-- The fields `2006-01-02` of Go's `parse`: a four-digit year, `-`, a two-digit month
in 1 .. 12, `-` and a two-digit day (checked against the month at the end of `parse`).
The result is year, month, day and the rest of the value. -/
def parseDateFields (value : List Char) : Option (Nat × Nat × Nat × List Char) :=
  match parseLongYear value with
  | none => none
  | some (year, v1) =>
    match skip v1 ['-'] with
    | none => none
    | some v2 =>
      match getnum v2 true with
      | none => none
      | some (month, v3) =>
        if month = 0 ∨ 12 < month then none
        else
          match skip v3 ['-'] with
          | none => none
          | some v4 =>
            match getnum v4 true with
            | none => none
            | some (day, v5) => some (year, month, day, v5)

/-- The fields `15:04:05` of Go's `parse`: an hour of one or two digits below 24, `:`,
a two-digit minute below 60, `:`, a two-digit second below 60 and the fractional second
the value may have. The result is hour, minute, second, nanosecond and the rest. -/
def parseClockFields (value : List Char) : Option (Nat × Nat × Nat × Nat × List Char) :=
  match getnum value false with
  | none => none
  | some (hour, v1) =>
    if 24 ≤ hour then none
    else
      match skip v1 [':'] with
      | none => none
      | some v2 =>
        match getnum v2 true with
        | none => none
        | some (min, v3) =>
          if 60 ≤ min then none
          else
            match skip v3 [':'] with
            | none => none
            | some v4 =>
              match getnum v4 true with
              | none => none
              | some (sec, v5) =>
                if 60 ≤ sec then none
                else some (hour, min, sec, (parseFraction v5).1, (parseFraction v5).2)

/-- The character between date and time in the layout. -/
def Layout.separator (layout : Layout) : Char :=
  match layout with
  | Layout.dateTime => ' '
  | Layout.rfc3339 => 'T'

/-- What the layout has after the seconds: nothing for `Layout.dateTime`, which leaves
the time in UTC, the zone `Z07:00` for RFC 3339. -/
def parseZoneOf (layout : Layout) (value : List Char) : Option (Int × List Char) :=
  match layout with
  | Layout.dateTime => some (0, value)
  | Layout.rfc3339 => parseZone value

/-- Go's `parse` run on the layout `2006-01-02 15:04:05` (`Layout.dateTime`) or on
`time.RFC3339`, that is `2006-01-02T15:04:05Z07:00`. The layouts split into the same
fields (`2006`, `01`, `02`, `15`, `04`, `05`) with the same separators, except for the
character between date and time and for the zone that ends RFC 3339. Text after the
last field and a day the month does not have are errors. `none` stands for a non-nil
error. -/
def parseChars (layout : Layout) (value : List Char) : Option Time :=
  match parseDateFields value with
  | none => none
  | some (year, month, day, v1) =>
    match skip v1 [layout.separator] with
    | none => none
    | some v2 =>
      match parseClockFields v2 with
      | none => none
      | some (hour, min, sec, nsec, v3) =>
        match parseZoneOf layout v3 with
        | none => none
        | some (zoneOffset, v4) =>
          if v4 ≠ [] then none
          else if day < 1 ∨ daysIn month year < day then none
          else some (Date year month day hour min sec nsec zoneOffset)

/-- Go's `time.Parse(layout, value)`. -/
def timeParse (layout : Layout) (value : String) : Option Time := parseChars layout value.data

/-! ## Data model, database and responses -/

/-- The `Contact` struct of `main.go`. -/
structure Contact where
  ID : Int
  Name : String
  Email : String
  Message : String
  CreatedAt : Time
  deriving DecidableEq, Repr

/-- A row of table `contacts` as `rows.Scan` reads it in `listContacts`: the columns
`id, name, email, message, created_at`, the last one read into a string. -/
structure RawRow where
  id : Int
  name : String
  email : String
  message : String
  created_at : String
  deriving DecidableEq, Repr

/-- What `listContacts` sees of a `*sql.Rows`: one entry per `rows.Next()` that returned
true, holding the row when `rows.Scan` succeeds and `none` when it fails, and whether
`rows.Err()` is non-nil once `rows.Next()` has returned false. -/
structure Rows where
  scans : List (Option RawRow)
  iterErr : Bool
  deriving DecidableEq, Repr

/-- What `createContact` uses of the `sql.Result` of its INSERT: the two results of
`LastInsertId()`, the id and whether the error is non-nil. -/
structure ExecResult where
  lastInsertId : Int
  lastInsertIdErr : Bool
  deriving DecidableEq, Repr

/-- The database handle `db` as the two handlers use it, over a store state `σ`:
the INSERT of `createContact` (an error text or a result, and the state afterwards),
the `SELECT COUNT(*)` (`none` on error) and the paged SELECT with its `limit` and
`offset` arguments (`none` on error). -/
structure Store (σ : Type) where
  execInsert : σ → String → String → String → Except String ExecResult × σ
  queryCount : σ → Option Int
  queryPage : σ → Int → Int → Option Rows

/-- The `pagination` object of the listing. -/
structure Pagination where
  current_page : Int
  total_pages : Int
  total_items : Int
  items_per_page : Int
  deriving DecidableEq, Repr

/-- The `gin.H` values the handlers hand to `c.JSON`. A Go slice is `none` when nil and
`some l` otherwise. -/
inductive Body where
  | error (error : String)
  | created (message : String) (id : Int)
  | listing (contacts : Option (List Contact)) (pagination : Pagination)
  deriving DecidableEq, Repr

/-- A response: the HTTP status and the value encoded as JSON. -/
structure Response where
  status : Nat
  body : Body
  deriving DecidableEq, Repr

/-- JSON values a `[]Contact` can be encoded to. -/
inductive JSONValue where
  | null
  | array (items : List Contact)
  deriving DecidableEq, Repr

/-- The encoding of a `[]Contact` by `encoding/json`, which `c.JSON` uses: a nil slice
is encoded as `null`, any other slice as an array. -/
def encodeSlice : Option (List Contact) → JSONValue
  | none => JSONValue.null
  | some l => JSONValue.array l

/-- Go's `append(s, c)` for one element: the result is never nil. -/
def appendContact (s : Option (List Contact)) (c : Contact) : Option (List Contact) :=
  match s with
  | none => some [c]
  | some l => some (l ++ [c])

/-- The elements of a Go slice. -/
def elems (s : Option (List Contact)) : List Contact :=
  match s with
  | none => []
  | some l => l

/-! ## `createContact` -/

/-- The handler `createContact`. `bind` is the outcome of `c.ShouldBindJSON(&contact)`:
the error text, or the struct after binding (a field the body does not have keeps its
zero value, the empty string). The result is the response and the store state after the
request. -/
def createContact {σ : Type} (db : Store σ) (bind : Except String Contact) (s : σ) : Response × σ :=
  match bind with
  | Except.error err => (⟨400, Body.error ("JSON inválido: " ++ err)⟩, s)
  | Except.ok contact =>
    if contact.Name = "" ∨ contact.Email = "" ∨ contact.Message = "" then
      (⟨400, Body.error "Todos los campos son requeridos"⟩, s)
    else
      match db.execInsert s contact.Name contact.Email contact.Message with
      | (Except.error _, s1) => (⟨500, Body.error "No se pudo guardar el contacto"⟩, s1)
      | (Except.ok result, s1) =>
        (⟨201, Body.created "Contacto guardado exitosamente" result.lastInsertId⟩, s1)

/-! ## `listContacts` -/

/-- Lines 183-191 of `listContacts`: the timestamp of a row. `now` is what `time.Now()`
returns if it is called for this row. -/
def parseCreatedAt (now : Time) (createdAtStr : String) : Time :=
  match timeParse Layout.dateTime createdAtStr with
  | some t => t
  | none =>
    match timeParse Layout.rfc3339 createdAtStr with
    | some t => t
    | none => now

/-- Lines 174-191 of `listContacts` for a row whose `rows.Scan` succeeded: the `Contact`
with the scanned id, name, email and message and the timestamp read from `created_at`. -/
def contactOfRow (now : Time) (r : RawRow) : Contact :=
  ⟨r.id, r.name, r.email, r.message, parseCreatedAt now r.created_at⟩

/-- The loop of lines 173-194 of `listContacts` over the remaining rows: `i` counts the
iterations done, `clock i` is the reading of the clock during iteration `i`, `contacts`
is the slice built so far. The result is the final slice, or the response of the
`return` taken when a `rows.Scan` fails. -/
def scanLoop (clock : Nat → Time) : List (Option RawRow) → Nat → Option (List Contact) →
    Except Response (Option (List Contact))
  | [], _, contacts => Except.ok contacts
  | none :: _, _, _ => Except.error ⟨500, Body.error "Error al leer datos"⟩
  | some r :: rest, i, contacts =>
    scanLoop clock rest (i + 1) (appendContact contacts (contactOfRow (clock i) r))

/-- The handler `listContacts`. `pageQ` and `limitQ` are the values of the query keys
`page` and `limit` (`none` when absent), `clock` gives the readings of `time.Now()`. -/
def listContacts {σ : Type} (db : Store σ) (clock : Nat → Time) (pageQ limitQ : Option String)
    (s : σ) : Response :=
  let page := effectivePage pageQ
  let limit := effectiveLimit limitQ
  let offset := offsetOf page limit
  match db.queryCount s with
  | none => ⟨500, Body.error "Error al contar contactos"⟩
  | some total =>
    match db.queryPage s limit offset with
    | none => ⟨500, Body.error "Error al obtener los contactos"⟩
    | some rows =>
      match scanLoop clock rows.scans 0 none with
      | Except.error resp => resp
      | Except.ok contacts =>
        if rows.iterErr then ⟨500, Body.error "Error procesando datos"⟩
        else
          let totalPages := totalPagesOf total limit
          ⟨200, Body.listing contacts ⟨page, totalPages, total, limit⟩⟩

/-- The items of the `contacts` field of a listing response (none for a nil slice and
for any other response). -/
def Response.contacts (r : Response) : List Contact :=
  match r.body with
  | Body.listing contacts _ => elems contacts
  | _ => []

/-- The `contacts` field of a listing response as encoded in the JSON body. -/
def Response.contactsField (r : Response) : Option JSONValue :=
  match r.body with
  | Body.listing contacts _ => some (encodeSlice contacts)
  | _ => none

/-- The `pagination` object of a listing response. -/
def Response.pagination (r : Response) : Option Pagination :=
  match r.body with
  | Body.listing _ p => some p
  | _ => none

/-! ## A store for tests: fixed answers -/

/-- A store over a one-point state that answers every count with `total` and every
page query with the given rows, handed to `rows.Scan` as they are, without error, and
whose INSERT fails with the given error text. -/
def fixedStore (total : Int) (rows : List RawRow) (insertErr : String) : Store Unit where
  execInsert s _ _ _ := (Except.error insertErr, s)
  queryCount _ := some total
  queryPage _ _ _ := some ⟨rows.map some, false⟩

/-- The store state after the given `createContact` requests, one after the other. -/
def createAll {σ : Type} (db : Store σ) : List (Except String Contact) → σ → σ
  | [], s => s
  | b :: bs, s => createAll db bs (createContact db b s).2

/-! ## The values of column `created_at` -/

/-- Whether the characters have the form `YYYY-MM-DD HH:MM:SS` of a valid date and time:
nineteen characters, two-digit fields (four for the year), month 1 .. 12, a day the
month has, hour below 24, minute and second below 60. This is the text that the column
default `CURRENT_TIMESTAMP` stores. -/
def isStoreTimestampChars : List Char → Bool
  | [y1, y2, y3, y4, c1, m1, m2, c2, d1, d2, c3, h1, h2, c4, n1, n2, c5, s1, s2] =>
    isDigitChar y1 && isDigitChar y2 && isDigitChar y3 && isDigitChar y4 &&
    isDigitChar m1 && isDigitChar m2 && isDigitChar d1 && isDigitChar d2 &&
    isDigitChar h1 && isDigitChar h2 && isDigitChar n1 && isDigitChar n2 &&
    isDigitChar s1 && isDigitChar s2 &&
    c1 == '-' && c2 == '-' && c3 == ' ' && c4 == ':' && c5 == ':' &&
    decide (1 ≤ (m1.toNat - 48) * 10 + (m2.toNat - 48)) &&
    decide ((m1.toNat - 48) * 10 + (m2.toNat - 48) ≤ 12) &&
    decide (1 ≤ (d1.toNat - 48) * 10 + (d2.toNat - 48)) &&
    decide ((d1.toNat - 48) * 10 + (d2.toNat - 48) ≤
      daysIn ((m1.toNat - 48) * 10 + (m2.toNat - 48))
        ((y1.toNat - 48) * 1000 + (y2.toNat - 48) * 100 + (y3.toNat - 48) * 10 + (y4.toNat - 48))) &&
    decide ((h1.toNat - 48) * 10 + (h2.toNat - 48) < 24) &&
    decide ((n1.toNat - 48) * 10 + (n2.toNat - 48) < 60) &&
    decide ((s1.toNat - 48) * 10 + (s2.toNat - 48) < 60)
  | _ => false

/-- Whether the text is a valid `YYYY-MM-DD HH:MM:SS` timestamp. -/
def isStoreTimestamp (s : String) : Bool := isStoreTimestampChars s.data

/-- A value of `CURRENT_TIMESTAMP`, the default of column `created_at`: a valid
`YYYY-MM-DD HH:MM:SS` text (in UTC). -/
structure StoreTimestamp where
  text : String
  valid : isStoreTimestamp text = true

/-- Whether the character can occur in an integer or real literal or in the white space
around one: a digit, a sign, the period, the exponent letter, a blank or one of the
control characters 9 .. 13. -/
def isNumericChar (c : Char) : Bool :=
  isDigitChar c || c == '+' || c == '-' || c == '.' || c == 'e' || c == 'E' || c == ' ' ||
    (decide (9 ≤ c.toNat) && decide (c.toNat ≤ 13))

/-- Whether the text has a character that no integer or real literal has. The column is
declared `DATETIME`, which gives it NUMERIC affinity: a text that is a well-formed number
is stored as a number, every other text as text. A text with such a character is
therefore stored as text. -/
def hasNonNumericChar (s : String) : Bool := s.data.any (fun c => !isNumericChar c)

/-- Whether the text begins with four digits, as every date layout of the driver does. -/
def startsWithYear (s : String) : Bool :=
  match s.data with
  | a :: b :: c :: d :: _ => isDigitChar a && isDigitChar b && isDigitChar c && isDigitChar d
  | _ => false

/-- The texts of column `created_at` that the in-memory table holds: the timestamps of
the store itself, and texts that are stored as text (they have a character no number
has) and that the driver does not take for a date (they do not begin with a four-digit
year). Numbers and texts in other date forms are left out of the table. -/
def isCreatedAtText (s : String) : Bool :=
  isStoreTimestamp s || (hasNonNumericChar s && !startsWithYear s)

/-- The RFC 3339 text of a `YYYY-MM-DD HH:MM:SS` timestamp in UTC:
`YYYY-MM-DDTHH:MM:SSZ`, which is what formatting the time with `time.RFC3339Nano`
gives when the nanoseconds are zero. -/
def rfc3339Text (stored : String) : String :=
  ⟨stored.data.take 10 ++ 'T' :: (stored.data.drop 11 ++ ['Z'])⟩

/-- The text that `rows.Scan` puts into the string for a stored `created_at` text. For a
column declared `DATETIME` the driver turns a stored `YYYY-MM-DD HH:MM:SS` text into a
`time.Time` in UTC, and `database/sql` formats a `time.Time` with `time.RFC3339Nano`
when the destination is a string; a text that is not a date is handed over as stored. -/
def scanText (stored : String) : String :=
  if isStoreTimestamp stored then rfc3339Text stored else stored

/-! ## The table `contacts` as an in-memory store -/

/-- A row of table `contacts` as stored; `created_at` is one of the texts the table
holds. -/
structure StoredRow where
  id : Int
  name : String
  email : String
  message : String
  created_at : String
  known : isCreatedAtText created_at = true

/-- The row that the INSERT of `createContact` stores: `created_at` is the
`CURRENT_TIMESTAMP` of the insertion. -/
def StoredRow.ofInsert (id : Int) (name email message : String) (now : StoreTimestamp) :
    StoredRow :=
  ⟨id, name, email, message, now.text, by simp [isCreatedAtText, now.valid]⟩

/-- The row as `rows.Scan` reads it. -/
def StoredRow.scan (r : StoredRow) : RawRow :=
  ⟨r.id, r.name, r.email, r.message, scanText r.created_at⟩

/-- The table `contacts`: its rows in insertion order and the last id that
`AUTOINCREMENT` handed out. -/
structure Table where
  rows : List StoredRow
  lastId : Int

/-- The empty table. -/
def Table.empty : Table := ⟨[], 0⟩

/-- Comparison of two texts character by character, the first difference deciding and a
proper prefix being smaller: the order of SQLite's default `BINARY` collation (the
order of the UTF-8 bytes is the order of the code points). -/
def ltChars : List Char → List Char → Bool
  | [], [] => false
  | [], _ :: _ => true
  | _ :: _, [] => false
  | a :: as, b :: bs =>
    if a.toNat < b.toNat then true
    else if b.toNat < a.toNat then false
    else ltChars as bs

/-- Whether the first text is smaller than the second in the order of the store. -/
def textLt (a b : String) : Bool := ltChars a.data b.data

/-- The relation "comes first or ties" of `ORDER BY created_at DESC` on stored texts:
the first text is not smaller than the second. -/
def textGe (a b : String) : Prop := textLt a b = false

instance : DecidableRel textGe := fun a b =>
  inferInstanceAs (Decidable (textLt a b = false))

/-- The relation "comes first or ties" of `ORDER BY created_at DESC` on stored rows. -/
def createdAtGe (a b : StoredRow) : Prop := textGe a.created_at b.created_at

instance : DecidableRel createdAtGe := fun a b =>
  inferInstanceAs (Decidable (textLt a.created_at b.created_at = false))

/-- Rows in the order of `ORDER BY created_at DESC` on stored text values. -/
def orderByCreatedAtDesc (rows : List StoredRow) : List StoredRow :=
  rows.insertionSort createdAtGe

/-- `LIMIT ? OFFSET ?` of SQLite: a negative offset counts as zero, a negative limit as
no limit. -/
def limitOffset {α : Type} (rows : List α) (limit offset : Int) : List α :=
  let rest := rows.drop offset.toNat
  if limit < 0 then rest else rest.take limit.toNat

/-- The rows that the page query selects, in order, as stored. -/
def selectPage (t : Table) (limit offset : Int) : List StoredRow :=
  limitOffset (orderByCreatedAtDesc t.rows) limit offset

/-- A store that never fails, following the SQL text of the three statements of
`main.go`. `stamp id` is the `CURRENT_TIMESTAMP` that the row with that id receives. The
page query orders the rows by the stored `created_at` and hands each selected row to
`rows.Scan` as the driver delivers it. -/
def tableStore (stamp : Int → StoreTimestamp) : Store Table where
  execInsert t name email message :=
    (Except.ok ⟨t.lastId + 1, false⟩,
      ⟨t.rows ++ [StoredRow.ofInsert (t.lastId + 1) name email message (stamp (t.lastId + 1))],
        t.lastId + 1⟩)
  queryCount t := some (t.rows.length : Int)
  queryPage t limit offset :=
    some ⟨((selectPage t limit offset).map StoredRow.scan).map some, false⟩

/-! ## Concrete stores and tables used as test inputs -/

/-- Noon of 1 June 2024 as a timestamp of the store. -/
def noon : StoreTimestamp := ⟨"2024-06-01 12:00:00", by decide⟩

/-- A table with one row, stamped at noon of 1 June 2024. -/
def oneRow : Table :=
  ⟨[⟨1, "Ana", "ana@example.org", "hola", "2024-06-01 12:00:00", by decide⟩], 1⟩

/-- Eleven rows with ids 1 .. 11, all created at the same second. -/
def elevenRows : Table :=
  ⟨[1, 2, 3, 4, 5, 6, 7, 8, 9, 10, 11].map
    (fun i => ⟨i, "Ana", "ana@example.org", "hola", "2024-06-01 12:00:00", by decide⟩), 11⟩

/-- Three rows stamped by the store at different times. -/
def threeRows : Table :=
  ⟨[⟨1, "Ana", "ana@example.org", "hola", "2024-05-31 23:59:59", by decide⟩,
    ⟨2, "Eva", "eva@example.org", "hi", "2024-06-01 12:00:00", by decide⟩,
    ⟨3, "Noa", "noa@example.org", "hey", "2023-12-31 08:30:00", by decide⟩], 3⟩

/-- Two rows: one whose `created_at` another writer stored in a day-first form, one
stamped by the store. -/
def foreignRows : Table :=
  ⟨[⟨1, "Ana", "ana@example.org", "hola", "01/06/2024 12:00", by decide⟩,
    ⟨2, "Eva", "eva@example.org", "hi", "2024-06-01 12:00:00", by decide⟩], 2⟩

/-- A store whose INSERT succeeds but whose `LastInsertId` returns 0 and an error. -/
def noIdStore : Store Table where
  execInsert t name email message :=
    (Except.ok ⟨0, true⟩,
      ⟨t.rows ++ [StoredRow.ofInsert (t.lastId + 1) name email message noon], t.lastId + 1⟩)
  queryCount t := some (t.rows.length : Int)
  queryPage t limit offset :=
    some ⟨((selectPage t limit offset).map StoredRow.scan).map some, false⟩

/-! ## Pagination arithmetic -/

theorem wrap64_of_inRange (x : Int) (h1 : minInt ≤ x) (h2 : x ≤ maxInt) : wrap64 x = x := by
  unfold wrap64
  unfold minInt at h1
  unfold maxInt at h2
  omega

theorem atoiChars_range (cs : List Char) (n : Int) (h : atoiChars cs = some n) :
    minInt ≤ n ∧ n ≤ maxInt := by
  unfold atoiChars at h
  split at h
  · exact absurd h (by simp)
  · simp only at h
    split at h
    · exact absurd h (by simp)
    · split at h
      · exact absurd h (by simp)
      · split at h <;> split at h
        all_goals first
          | (rename_i hr
             simp only [Option.some.injEq] at h
             rw [← h]
             exact hr)
          | (simp at h)

theorem Atoi_range (s : String) (n : Int) (h : Atoi s = some n) : minInt ≤ n ∧ n ≤ maxInt :=
  atoiChars_range s.data n h

theorem effectiveLimit_range (limitQ : Option String) :
    1 ≤ effectiveLimit limitQ ∧ effectiveLimit limitQ ≤ 100 := by
  unfold effectiveLimit
  simp only
  split
  · constructor <;> decide
  · split
    · constructor <;> decide
    · constructor <;> omega

theorem effectivePage_range (pageQ : Option String) :
    1 ≤ effectivePage pageQ ∧ effectivePage pageQ ≤ maxInt := by
  unfold effectivePage
  simp only
  split
  · constructor <;> decide
  · rename_i page hp
    split
    · constructor <;> decide
    · exact ⟨by omega, (Atoi_range _ _ hp).2⟩

theorem scanLoop_error (clock : Nat → Time) (l : List (Option RawRow)) (i : Nat)
    (acc : Option (List Contact)) (r : Response) (h : scanLoop clock l i acc = Except.error r) :
    r = ⟨500, Body.error "Error al leer datos"⟩ := by
  induction l generalizing i acc with
  | nil => simp [scanLoop] at h
  | cons a t ih =>
    cases a with
    | none =>
      simp only [scanLoop, Except.error.injEq] at h
      exact h.symm
    | some a =>
      simp only [scanLoop] at h
      exact ih _ _ h

theorem listContacts_listing {σ : Type} (db : Store σ) (clock : Nat → Time)
    (pageQ limitQ : Option String) (s : σ) (contacts : Option (List Contact)) (p : Pagination)
    (h : (listContacts db clock pageQ limitQ s).body = Body.listing contacts p) :
    ∃ total rows, db.queryCount s = some total ∧
      db.queryPage s (effectiveLimit limitQ)
        (offsetOf (effectivePage pageQ) (effectiveLimit limitQ)) = some rows ∧
      scanLoop clock rows.scans 0 none = Except.ok contacts ∧ rows.iterErr = false ∧
      p = ⟨effectivePage pageQ, totalPagesOf total (effectiveLimit limitQ), total,
        effectiveLimit limitQ⟩ ∧
      listContacts db clock pageQ limitQ s = ⟨200, Body.listing contacts p⟩ := by
  unfold listContacts at h ⊢
  simp only at h ⊢
  split at h
  · simp at h
  · rename_i total htotal
    split at h
    · simp at h
    · rename_i rows hrows
      split at h
      · rename_i resp hresp
        rw [scanLoop_error _ _ _ _ _ hresp] at h
        simp at h
      · rename_i cs hcs
        split at h
        · simp at h
        · rename_i hiter
          simp only [Body.listing.injEq] at h
          refine ⟨total, rows, htotal, hrows, ?_, by simpa using hiter, h.2.symm, ?_⟩
          · rw [hcs, h.1]
          · simp [htotal, hrows, hcs, hiter, h.1, ← h.2]

theorem listContacts_ok {σ : Type} (db : Store σ) (clock : Nat → Time)
    (pageQ limitQ : Option String) (s : σ) (total : Int) (rows : Rows)
    (contacts : Option (List Contact))
    (hc : db.queryCount s = some total)
    (hq : db.queryPage s (effectiveLimit limitQ)
      (offsetOf (effectivePage pageQ) (effectiveLimit limitQ)) = some rows)
    (hs : scanLoop clock rows.scans 0 none = Except.ok contacts) (he : rows.iterErr = false) :
    listContacts db clock pageQ limitQ s =
      ⟨200, Body.listing contacts ⟨effectivePage pageQ,
        totalPagesOf total (effectiveLimit limitQ), total, effectiveLimit limitQ⟩⟩ := by
  unfold listContacts
  simp [hc, hq, hs, he]

theorem listContacts_congr {σ : Type} (db db2 : Store σ) (clock : Nat → Time)
    (pageQ limitQ : Option String) (s : σ)
    (hc : db2.queryCount s = db.queryCount s)
    (hq : db2.queryPage s (effectiveLimit limitQ)
        (offsetOf (effectivePage pageQ) (effectiveLimit limitQ)) =
      db.queryPage s (effectiveLimit limitQ)
        (offsetOf (effectivePage pageQ) (effectiveLimit limitQ))) :
    listContacts db2 clock pageQ limitQ s = listContacts db clock pageQ limitQ s := by
  unfold listContacts
  simp only [hc, hq]

/-- C1. In `listContacts` the effective limit lies in [1,100] for every value of the
`limit` query parameter: it is 10 when the parameter is absent; it is the parsed integer
`n` when the string parses (`strconv.Atoi`) with `1 ≤ n ≤ 100`; it is 10 for every string
that does not parse or parses to a value below 1 or above 100. This effective limit is
the one reported as `items_per_page` in every listing response, and it is the `limit`
argument of the page query: a store that answers the count and the page query at the
effective limit (and the offset derived from it) in the same way yields the same
response. -/
theorem C1_limit_clamped (limitQ : Option String) :
    (1 ≤ effectiveLimit limitQ ∧ effectiveLimit limitQ ≤ 100) ∧
    (limitQ = none → effectiveLimit limitQ = 10) ∧
    (∀ (str : String) (n : Int), limitQ = some str → Atoi str = some n → 1 ≤ n → n ≤ 100 →
      effectiveLimit limitQ = n) ∧
    (∀ str : String, limitQ = some str → (∀ n : Int, Atoi str = some n → n < 1 ∨ 100 < n) →
      effectiveLimit limitQ = 10) ∧
    (∀ (σ : Type) (db : Store σ) (clock : Nat → Time) (pageQ : Option String) (s : σ)
      (contacts : Option (List Contact)) (p : Pagination),
      (listContacts db clock pageQ limitQ s).body = Body.listing contacts p →
      p.items_per_page = effectiveLimit limitQ) ∧
    (∀ (σ : Type) (db db2 : Store σ) (clock : Nat → Time) (pageQ : Option String) (s : σ),
      db2.queryCount s = db.queryCount s →
      db2.queryPage s (effectiveLimit limitQ)
          (offsetOf (effectivePage pageQ) (effectiveLimit limitQ)) =
        db.queryPage s (effectiveLimit limitQ)
          (offsetOf (effectivePage pageQ) (effectiveLimit limitQ)) →
      listContacts db2 clock pageQ limitQ s = listContacts db clock pageQ limitQ s) := by
  refine ⟨effectiveLimit_range limitQ, ?_, ?_, ?_, ?_, ?_⟩
  · intro h
    subst h
    decide
  · intro str n h hn h1 h100
    subst h
    unfold effectiveLimit DefaultQuery
    simp only [hn]
    rw [if_neg]
    omega
  · intro str h hall
    subst h
    unfold effectiveLimit DefaultQuery
    simp only
    split
    · rfl
    · rename_i n hn
      have := hall n hn
      rw [if_pos]
      omega
  · intro σ db clock pageQ s contacts p h
    obtain ⟨total, rows, -, -, -, -, hp, -⟩ := listContacts_listing db clock pageQ limitQ s contacts p h
    rw [hp]
  · intro σ db db2 clock pageQ s hc hq
    exact listContacts_congr db db2 clock pageQ limitQ s hc hq

/-- C1, at `limit=42`, `limit=0`, `limit=abc` and a table of one row: the effective
limits are 42, 10 and 10, and the listing reports 42 items per page. -/
theorem C1_limit_clamped_witness :
    effectiveLimit (some "42") = 42 ∧ effectiveLimit (some "0") = 10 ∧
    effectiveLimit (some "abc") = 10 ∧ effectiveLimit none = 10 ∧
    (42 : Int) = effectiveLimit (some "42") :=
  ⟨(C1_limit_clamped (some "42")).2.2.1 "42" 42 rfl (by decide) (by decide) (by decide),
   (C1_limit_clamped (some "0")).2.2.2.1 "0" rfl (by
      intro n hn
      have h0 : Atoi "0" = some 0 := by decide
      rw [h0] at hn
      simp only [Option.some.injEq] at hn
      omega),
   (C1_limit_clamped (some "abc")).2.2.2.1 "abc" rfl (by
      intro n hn
      have h0 : Atoi "abc" = none := by decide
      rw [h0] at hn
      simp at hn),
   (C1_limit_clamped none).2.1 rfl,
   (C1_limit_clamped (some "42")).2.2.2.2.1 Table (tableStore (fun _ => noon))
      (fun _ => ⟨0⟩) none oneRow
      (some [⟨1, "Ana", "ana@example.org", "hola", ⟨63884462400000000000⟩⟩]) ⟨1, 1, 1, 42⟩
      (by decide)⟩

theorem effectiveLimit_500 : effectiveLimit (some "500") = 10 := by decide

theorem effectiveLimit_10 : effectiveLimit (some "10") = 10 := by decide

/-- C2, as stated, fails: `limit=500` is outside 1 .. 100 and falls back to 10, while
`limit=100` is kept. On a table of eleven rows, page 1 with `limit=500` has ten items in
two pages of ten, with `limit=100` eleven items in one page of a hundred. -/
theorem C2_limit500_counterexample :
    effectiveLimit (some "500") = 10 ∧ effectiveLimit (some "100") = 100 ∧
    (listContacts (tableStore (fun _ => noon)) (fun _ => ⟨0⟩) (some "1") (some "500")
      elevenRows).contacts.length = 10 ∧
    (listContacts (tableStore (fun _ => noon)) (fun _ => ⟨0⟩) (some "1") (some "500")
      elevenRows).pagination = some ⟨1, 2, 11, 10⟩ ∧
    (listContacts (tableStore (fun _ => noon)) (fun _ => ⟨0⟩) (some "1") (some "100")
      elevenRows).contacts.length = 11 ∧
    (listContacts (tableStore (fun _ => noon)) (fun _ => ⟨0⟩) (some "1") (some "100")
      elevenRows).pagination = some ⟨1, 1, 11, 100⟩ := by
  refine ⟨by decide, by decide, by decide, by decide, by decide, by decide⟩

/-- C2, amended. A request with `limit=500` behaves exactly as a request with `limit=10`
and as one without `limit`: for every page value and every store, the effective limit
(10), the offset, the page query issued (so the rows fetched) and the whole response
with its pagination block are the same. -/
theorem C2_limit500_as_limit10 {σ : Type} (db : Store σ) (clock : Nat → Time)
    (pageQ : Option String) (s : σ) :
    effectiveLimit (some "500") = 10 ∧
    effectiveLimit (some "500") = effectiveLimit (some "10") ∧
    effectiveLimit (some "500") = effectiveLimit none ∧
    offsetOf (effectivePage pageQ) (effectiveLimit (some "500")) =
      offsetOf (effectivePage pageQ) (effectiveLimit (some "10")) ∧
    db.queryPage s (effectiveLimit (some "500"))
        (offsetOf (effectivePage pageQ) (effectiveLimit (some "500"))) =
      db.queryPage s (effectiveLimit (some "10"))
        (offsetOf (effectivePage pageQ) (effectiveLimit (some "10"))) ∧
    listContacts db clock pageQ (some "500") s = listContacts db clock pageQ (some "10") s ∧
    listContacts db clock pageQ (some "500") s = listContacts db clock pageQ none s := by
  have h500 := effectiveLimit_500
  have h10 := effectiveLimit_10
  have hnone : effectiveLimit none = 10 := by decide
  refine ⟨h500, by rw [h500, h10], by rw [h500, hnone], by rw [h500, h10], by rw [h500, h10], ?_, ?_⟩
  · unfold listContacts
    simp only [h500, h10]
  · unfold listContacts
    simp only [h500, hnone]

/-- The offset of `listContacts` is the mathematical product as long as that product fits
the 64-bit `int`, in particular for every page up to 92233720368547758. -/
theorem offsetOf_exact (pageQ limitQ : Option String)
    (h : (effectivePage pageQ - 1) * effectiveLimit limitQ ≤ maxInt) :
    offsetOf (effectivePage pageQ) (effectiveLimit limitQ) =
        (effectivePage pageQ - 1) * effectiveLimit limitQ ∧
      0 ≤ offsetOf (effectivePage pageQ) (effectiveLimit limitQ) := by
  have hp := effectivePage_range pageQ
  have hl := effectiveLimit_range limitQ
  have h0 : 0 ≤ (effectivePage pageQ - 1) * effectiveLimit limitQ :=
    Int.mul_nonneg (by omega) (by omega)
  have hs : subInt (effectivePage pageQ) 1 = effectivePage pageQ - 1 := by
    unfold subInt
    apply wrap64_of_inRange
    · unfold minInt; omega
    · omega
  unfold offsetOf mulInt
  rw [hs, wrap64_of_inRange _ (by unfold minInt; omega) h]
  exact ⟨rfl, h0⟩

/-- C3 fails at `page=9223372036854775807` (the largest value `strconv.Atoi` accepts)
without `limit`: the effective page is that value, the effective limit is 10, the
product `(page - 1) * limit` is 92233720368547758060, and the offset the handler
computes and passes to the store is -20. -/
theorem C3_offset_wraps :
    Atoi "9223372036854775807" = some 9223372036854775807 ∧
    effectivePage (some "9223372036854775807") = 9223372036854775807 ∧
    effectiveLimit none = 10 ∧
    (effectivePage (some "9223372036854775807") - 1) * effectiveLimit none
      = 92233720368547758060 ∧
    offsetOf (effectivePage (some "9223372036854775807")) (effectiveLimit none) = -20 := by
  refine ⟨by decide, by decide, by decide, by decide, by decide⟩

theorem totalPagesOf_exact (total limit : Int) (h0 : 0 ≤ total) (h1 : 1 ≤ limit)
    (h3 : total + limit - 1 ≤ maxInt) :
    totalPagesOf total limit = (total + limit - 1) / limit := by
  have hmax : maxInt = 9223372036854775807 := rfl
  have hmin : minInt = -9223372036854775808 := rfl
  have hq0 : 0 ≤ (total + limit - 1) / limit := Int.ediv_nonneg (by omega) (by omega)
  have hq1 : (total + limit - 1) / limit ≤ total + limit - 1 :=
    Int.ediv_le_self _ (by omega)
  have hsum : subInt (addInt total limit) 1 = total + limit - 1 := by
    unfold subInt addInt wrap64
    omega
  unfold totalPagesOf divInt
  rw [hsum, Int.tdiv_eq_ediv (by omega) (by omega),
    wrap64_of_inRange ((total + limit - 1) / limit) (by omega) (by omega)]

/-- C4. For every row count `total ≥ 0` and every effective limit in [1,100],
`total_pages = (total + limit - 1) / limit` (truncating division) is the ceiling of
`total / limit`: it is the least integer `k` with `k * limit ≥ total`, and it is 0 exactly
when `total` is 0. The count is one that leaves `total + limit - 1` within the 64-bit
`int` of the source (at most 9223372036854775807), as every count of a table does. In
every listing response `total_pages` is this value for the response's `total_items` and
`items_per_page`, and `items_per_page` is in [1,100]. -/
theorem C4_totalPages_ceil (total limit : Int) (h0 : 0 ≤ total) (h1 : 1 ≤ limit)
    (h2 : limit ≤ 100) (h3 : total + limit - 1 ≤ maxInt) :
    totalPagesOf total limit = (total + limit - 1) / limit ∧
    total ≤ totalPagesOf total limit * limit ∧
    (∀ j : Int, total ≤ j * limit → totalPagesOf total limit ≤ j) ∧
    (totalPagesOf total limit = 0 ↔ total = 0) ∧
    (∀ (σ : Type) (db : Store σ) (clock : Nat → Time) (pageQ limitQ : Option String) (s : σ)
      (contacts : Option (List Contact)) (p : Pagination),
      (listContacts db clock pageQ limitQ s).body = Body.listing contacts p →
      p.total_pages = totalPagesOf p.total_items p.items_per_page ∧
        1 ≤ p.items_per_page ∧ p.items_per_page ≤ 100) := by
  have hpos : 0 < limit := by omega
  have hk := totalPagesOf_exact total limit h0 h1 h3
  have hup : total ≤ totalPagesOf total limit * limit := by
    have := Int.lt_ediv_add_one_mul_self (total + limit - 1) hpos
    rw [hk]
    rw [Int.add_mul, Int.one_mul] at this
    omega
  have hleast : ∀ j : Int, total ≤ j * limit → totalPagesOf total limit ≤ j := by
    intro j hj
    rw [hk]
    have : (total + limit - 1) / limit < j + 1 := by
      rw [Int.ediv_lt_iff_lt_mul hpos, Int.add_mul, Int.one_mul]
      omega
    omega
  refine ⟨hk, hup, hleast, ?_, ?_⟩
  · constructor
    · intro hz
      rw [hz] at hup
      omega
    · intro hz
      have hle := hleast 0 (by omega)
      have hge : 0 ≤ totalPagesOf total limit := by
        rw [hk]
        exact Int.ediv_nonneg (by omega) (by omega)
      omega
  · intro σ db clock pageQ limitQ s contacts p h
    obtain ⟨t, rows, -, -, -, -, hp, -⟩ := listContacts_listing db clock pageQ limitQ s contacts p h
    have hl := effectiveLimit_range limitQ
    rw [hp]
    exact ⟨rfl, hl.1, hl.2⟩

/-- C4 at 21 rows and limit 10: three pages. -/
theorem C4_totalPages_ceil_witness :
    totalPagesOf 21 10 = 3 ∧ (21 : Int) ≤ totalPagesOf 21 10 * 10 :=
  ⟨(by decide : (21 + 10 - 1 : Int) / 10 = 3) ▸
      (C4_totalPages_ceil 21 10 (by decide) (by decide) (by decide) (by decide)).1,
    (C4_totalPages_ceil 21 10 (by decide) (by decide) (by decide) (by decide)).2.1⟩

/-! ## `createContact` -/

/-- C5. In `createContact`, for every request whose body fails to bind, or binds with
`name`, `email` or `message` empty (a field missing from the body binds as the empty
string), the response status is 400, the store state is unchanged, and the response and
state are the same whatever the store's operations do: the INSERT is not executed. -/
theorem C5_invalid_body_rejected {σ : Type} (db : Store σ) (bind : Except String Contact) (s : σ)
    (h : ∀ c : Contact, bind = Except.ok c → c.Name = "" ∨ c.Email = "" ∨ c.Message = "") :
    (createContact db bind s).1.status = 400 ∧
    (createContact db bind s).2 = s ∧
    (∀ db2 : Store σ, createContact db2 bind s = createContact db bind s) := by
  cases bind with
  | error err => exact ⟨rfl, rfl, fun _ => rfl⟩
  | ok c =>
    have hc := h c rfl
    have key : ∀ d : Store σ, createContact d (Except.ok c) s =
        (⟨400, Body.error "Todos los campos son requeridos"⟩, s) := by
      intro d
      unfold createContact
      simp only [if_pos hc]
    refine ⟨?_, ?_, ?_⟩
    · rw [key db]
    · rw [key db]
    · intro db2
      rw [key db, key db2]

/-- C5 on the in-memory table: a body without `name` and a body that is not JSON both
get 400 and leave the table empty. -/
theorem C5_invalid_body_rejected_witness :
    (createContact (tableStore (fun _ => noon))
        (Except.ok ⟨0, "", "ana@example.org", "hola", ⟨0⟩⟩) Table.empty).1.status = 400 ∧
    (createContact (tableStore (fun _ => noon))
        (Except.ok ⟨0, "", "ana@example.org", "hola", ⟨0⟩⟩) Table.empty).2 = Table.empty ∧
    (createContact (tableStore (fun _ => noon))
        (Except.error "unexpected EOF") Table.empty).1.status = 400 :=
  ⟨(C5_invalid_body_rejected (tableStore (fun _ => noon))
      (Except.ok ⟨0, "", "ana@example.org", "hola", ⟨0⟩⟩) Table.empty
      (fun c hc => by
        injection hc with hc
        subst hc
        exact Or.inl rfl)).1,
   (C5_invalid_body_rejected (tableStore (fun _ => noon))
      (Except.ok ⟨0, "", "ana@example.org", "hola", ⟨0⟩⟩) Table.empty
      (fun c hc => by
        injection hc with hc
        subst hc
        exact Or.inl rfl)).2.1,
   (C5_invalid_body_rejected (tableStore (fun _ => noon))
      (Except.error "unexpected EOF") Table.empty
      (fun c hc => by cases hc)).1⟩

/-- C6. In `createContact`, for every body that binds with `name`, `email` and `message`
all non-empty, the INSERT is executed with these three values. If it succeeds the
response is 201 with the confirmation message and the id that `LastInsertId` returned,
whether or not `LastInsertId` also returned an error; if it fails the response is 500
with the message `No se pudo guardar el contacto`, whatever the error is. -/
theorem C6_create_outcomes {σ : Type} (db : Store σ) (c : Contact) (s : σ)
    (hn : c.Name ≠ "") (he : c.Email ≠ "") (hm : c.Message ≠ "") :
    (∀ (result : ExecResult) (s1 : σ),
      db.execInsert s c.Name c.Email c.Message = (Except.ok result, s1) →
      createContact db (Except.ok c) s =
        (⟨201, Body.created "Contacto guardado exitosamente" result.lastInsertId⟩, s1)) ∧
    (∀ (err : String) (s1 : σ),
      db.execInsert s c.Name c.Email c.Message = (Except.error err, s1) →
      createContact db (Except.ok c) s =
        (⟨500, Body.error "No se pudo guardar el contacto"⟩, s1)) := by
  have hv : ¬ (c.Name = "" ∨ c.Email = "" ∨ c.Message = "") := by
    intro h
    rcases h with h | h | h
    · exact hn h
    · exact he h
    · exact hm h
  constructor
  · intro result s1 hx
    unfold createContact
    simp only [if_neg hv, hx]
  · intro err s1 hx
    unfold createContact
    simp only [if_neg hv, hx]

/-- C6 on concrete stores: the in-memory table answers 201 with id 1, a store that
cannot report the id still gets 201, and a store whose INSERT fails gets 500. -/
theorem C6_create_outcomes_witness :
    (createContact (tableStore (fun _ => noon))
        (Except.ok ⟨0, "Ana", "ana@example.org", "hola", ⟨0⟩⟩) Table.empty).1 =
      ⟨201, Body.created "Contacto guardado exitosamente" 1⟩ ∧
    (createContact noIdStore (Except.ok ⟨0, "Ana", "ana@example.org", "hola", ⟨0⟩⟩)
        Table.empty).1 = ⟨201, Body.created "Contacto guardado exitosamente" 0⟩ ∧
    (createContact (fixedStore 0 [] "database is locked")
        (Except.ok ⟨0, "Ana", "ana@example.org", "hola", ⟨0⟩⟩) ()).1 =
      ⟨500, Body.error "No se pudo guardar el contacto"⟩ :=
  ⟨congrArg Prod.fst ((C6_create_outcomes (tableStore (fun _ => noon))
      ⟨0, "Ana", "ana@example.org", "hola", ⟨0⟩⟩ Table.empty (by decide) (by decide) (by decide)).1
      ⟨1, false⟩ oneRow rfl),
   congrArg Prod.fst ((C6_create_outcomes noIdStore
      ⟨0, "Ana", "ana@example.org", "hola", ⟨0⟩⟩ Table.empty (by decide) (by decide) (by decide)).1
      ⟨0, true⟩ oneRow rfl),
   congrArg Prod.fst ((C6_create_outcomes (fixedStore 0 [] "database is locked")
      ⟨0, "Ana", "ana@example.org", "hola", ⟨0⟩⟩ () (by decide) (by decide) (by decide)).2
      "database is locked" () rfl)⟩

/-! ## The scan loop and the listing -/

theorem scanLoop_all_ok (clock : Nat → Time) (rs : List RawRow) (i : Nat)
    (acc : Option (List Contact)) :
    ∃ contacts, scanLoop clock (rs.map some) i acc = Except.ok contacts ∧
      elems contacts = elems acc ++
        List.zipWith (fun k r => contactOfRow (clock k) r) (List.range' i rs.length) rs ∧
      (rs = [] → contacts = acc) := by
  induction rs generalizing i acc with
  | nil => exact ⟨acc, rfl, by simp, fun _ => rfl⟩
  | cons r rest ih =>
    obtain ⟨cs, h1, h2, -⟩ := ih (i + 1) (appendContact acc (contactOfRow (clock i) r))
    refine ⟨cs, ?_, ?_, by simp⟩
    · simp only [List.map_cons, scanLoop]
      exact h1
    · rw [h2]
      cases acc <;> simp [appendContact, elems, List.range']

theorem listContacts_all_ok {σ : Type} (db : Store σ) (clock : Nat → Time)
    (pageQ limitQ : Option String) (s : σ) (total : Int) (rows : Rows) (rs : List RawRow)
    (hc : db.queryCount s = some total)
    (hq : db.queryPage s (effectiveLimit limitQ)
      (offsetOf (effectivePage pageQ) (effectiveLimit limitQ)) = some rows)
    (hs : rows.scans = rs.map some) (he : rows.iterErr = false) :
    ∃ contacts, listContacts db clock pageQ limitQ s =
        ⟨200, Body.listing contacts ⟨effectivePage pageQ,
          totalPagesOf total (effectiveLimit limitQ), total, effectiveLimit limitQ⟩⟩ ∧
      elems contacts =
        List.zipWith (fun k r => contactOfRow (clock k) r) (List.range rs.length) rs ∧
      (rs = [] → contacts = none) := by
  obtain ⟨cs, h1, h2, h3⟩ := scanLoop_all_ok clock rs 0 none
  refine ⟨cs, ?_, ?_, h3⟩
  · exact listContacts_ok db clock pageQ limitQ s total rows cs hc hq (by rw [hs]; exact h1) he
  · rw [h2, List.range_eq_range']
    simp [elems]

theorem length_zipWith_range (clock : Nat → Time) (rs : List RawRow) :
    (List.zipWith (fun k r => contactOfRow (clock k) r) (List.range rs.length) rs).length
      = rs.length := by
  simp

/-- C9. Reading a timestamp never fails: for every stored `created_at` string the row's
timestamp is the `YYYY-MM-DD HH:MM:SS` parse if that succeeds, otherwise the RFC 3339
parse if that succeeds, otherwise the clock reading. So whenever the count, the page
query, every scan and the iteration succeed, the response is 200 and `contacts` has
exactly one item per fetched row, in the same order, with id, name, email and message
unchanged, whatever the rows' timestamp strings are. -/
theorem C9_listing_survives_timestamps {σ : Type} (db : Store σ) (clock : Nat → Time)
    (pageQ limitQ : Option String) (s : σ) (total : Int) (rows : Rows) (rs : List RawRow)
    (hc : db.queryCount s = some total)
    (hq : db.queryPage s (effectiveLimit limitQ)
      (offsetOf (effectivePage pageQ) (effectiveLimit limitQ)) = some rows)
    (hs : rows.scans = rs.map some) (he : rows.iterErr = false) :
    (listContacts db clock pageQ limitQ s).status = 200 ∧
    (listContacts db clock pageQ limitQ s).contacts =
      List.zipWith (fun k r => contactOfRow (clock k) r) (List.range rs.length) rs ∧
    (listContacts db clock pageQ limitQ s).contacts.length = rs.length ∧
    (listContacts db clock pageQ limitQ s).contacts.map
        (fun c => (c.ID, c.Name, c.Email, c.Message)) =
      rs.map (fun r => (r.id, r.name, r.email, r.message)) ∧
    (∀ (now : Time) (r : RawRow),
      (contactOfRow now r).ID = r.id ∧ (contactOfRow now r).Name = r.name ∧
      (contactOfRow now r).Email = r.email ∧ (contactOfRow now r).Message = r.message ∧
      ((∃ t, timeParse Layout.dateTime r.created_at = some t ∧ (contactOfRow now r).CreatedAt = t) ∨
       (timeParse Layout.dateTime r.created_at = none ∧
          ∃ t, timeParse Layout.rfc3339 r.created_at = some t ∧ (contactOfRow now r).CreatedAt = t) ∨
       (timeParse Layout.dateTime r.created_at = none ∧
          timeParse Layout.rfc3339 r.created_at = none ∧ (contactOfRow now r).CreatedAt = now))) := by
  obtain ⟨cs, h1, h2, -⟩ := listContacts_all_ok db clock pageQ limitQ s total rows rs hc hq hs he
  have hcontacts : (listContacts db clock pageQ limitQ s).contacts =
      List.zipWith (fun k r => contactOfRow (clock k) r) (List.range rs.length) rs := by
    rw [h1]
    exact h2
  refine ⟨by rw [h1], hcontacts, by rw [hcontacts]; simp, ?_, ?_⟩
  · rw [hcontacts]
    apply List.ext_getElem
    · simp
    · intro n h1 h2
      simp [contactOfRow]
  · intro now r
    refine ⟨rfl, rfl, rfl, rfl, ?_⟩
    unfold contactOfRow parseCreatedAt
    simp only
    cases h1 : timeParse Layout.dateTime r.created_at with
    | some t => exact Or.inl ⟨t, rfl, rfl⟩
    | none =>
      cases h2 : timeParse Layout.rfc3339 r.created_at with
      | some t => exact Or.inr (Or.inl ⟨rfl, t, rfl, rfl⟩)
      | none => exact Or.inr (Or.inr ⟨rfl, rfl, rfl⟩)

/-- C9 on a table whose two rows have a timestamp in neither format and an RFC 3339
one: the listing is 200 and has both rows. -/
theorem C9_listing_survives_timestamps_witness :
    (listContacts (fixedStore 2
        [⟨2, "Eva", "eva@example.org", "hi", "yesterday"⟩,
         ⟨1, "Ana", "ana@example.org", "hola", "2024-06-01T12:00:00Z"⟩] "")
        (fun _ => ⟨5⟩) none none ()).status = 200 ∧
    (listContacts (fixedStore 2
        [⟨2, "Eva", "eva@example.org", "hi", "yesterday"⟩,
         ⟨1, "Ana", "ana@example.org", "hola", "2024-06-01T12:00:00Z"⟩] "")
        (fun _ => ⟨5⟩) none none ()).contacts.length = 2 :=
  ⟨(C9_listing_survives_timestamps (fixedStore 2
        [⟨2, "Eva", "eva@example.org", "hi", "yesterday"⟩,
         ⟨1, "Ana", "ana@example.org", "hola", "2024-06-01T12:00:00Z"⟩] "")
        (fun _ => ⟨5⟩) none none () 2 _ _ rfl rfl rfl rfl).1,
   (C9_listing_survives_timestamps (fixedStore 2
        [⟨2, "Eva", "eva@example.org", "hi", "yesterday"⟩,
         ⟨1, "Ana", "ana@example.org", "hola", "2024-06-01T12:00:00Z"⟩] "")
        (fun _ => ⟨5⟩) none none () 2 _ _ rfl rfl rfl rfl).2.2.1⟩

/-- C10 fails on pages without rows: on the empty table, and on page 2 of a table with
one row, the handler never appends to `contacts`, the slice stays nil, and the
`contacts` field of the 200 response is encoded as `null`, not as an empty list. -/
theorem C10_empty_page_is_null :
    listContacts (tableStore (fun _ => noon)) (fun _ => ⟨0⟩) none none
        Table.empty = ⟨200, Body.listing none ⟨1, 0, 0, 10⟩⟩ ∧
    (listContacts (tableStore (fun _ => noon)) (fun _ => ⟨0⟩) none none
        Table.empty).contactsField = some JSONValue.null ∧
    (listContacts (tableStore (fun _ => noon)) (fun _ => ⟨0⟩) (some "2") none
        oneRow).contactsField
      = some JSONValue.null ∧
    (listContacts (tableStore (fun _ => noon)) (fun _ => ⟨0⟩) (some "1") none
        oneRow).contactsField
      = some (JSONValue.array [⟨1, "Ana", "ana@example.org", "hola", ⟨63884462400000000000⟩⟩]) := by
  refine ⟨by decide, by decide, by decide, by decide⟩

/-! ## Insertions followed by a listing, on the in-memory table -/

theorem Atoi_toString_small (n : Nat) (h : n ≤ 100) : Atoi (toString n) = some (n : Int) := by
  interval_cases n <;> decide

theorem createContact_table_valid (stamp : Int → StoreTimestamp) (c : Contact) (t : Table)
    (hn : c.Name ≠ "") (he : c.Email ≠ "") (hm : c.Message ≠ "") :
    createContact (tableStore stamp) (Except.ok c) t =
      (⟨201, Body.created "Contacto guardado exitosamente" (t.lastId + 1)⟩,
        ⟨t.rows ++ [StoredRow.ofInsert (t.lastId + 1) c.Name c.Email c.Message
            (stamp (t.lastId + 1))], t.lastId + 1⟩) := by
  have hv : ¬ (c.Name = "" ∨ c.Email = "" ∨ c.Message = "") := by
    intro h
    rcases h with h | h | h
    · exact hn h
    · exact he h
    · exact hm h
  unfold createContact
  simp only [if_neg hv, tableStore]

theorem createAll_table_length (stamp : Int → StoreTimestamp) (bodies : List (Except String Contact))
    (t : Table)
    (hvalid : ∀ b ∈ bodies, ∃ c : Contact,
      b = Except.ok c ∧ c.Name ≠ "" ∧ c.Email ≠ "" ∧ c.Message ≠ "") :
    (createAll (tableStore stamp) bodies t).rows.length = t.rows.length + bodies.length := by
  induction bodies generalizing t with
  | nil => simp [createAll]
  | cons b bs ih =>
    obtain ⟨c, hb, hn, he, hm⟩ := hvalid b (List.mem_cons_self b bs)
    subst hb
    simp only [createAll, createContact_table_valid stamp c t hn he hm]
    rw [ih _ (fun b2 h2 => hvalid b2 (List.mem_cons_of_mem _ h2))]
    simp only [List.length_append, List.length_cons, List.length_nil]
    omega

theorem offsetOf_page1 (limit : Int) : offsetOf (effectivePage (some "1")) limit = 0 := by
  have h1 : effectivePage (some "1") = 1 := by decide
  have h2 : subInt 1 1 = 0 := by decide
  have h3 : wrap64 0 = 0 := by decide
  rw [h1]
  unfold offsetOf mulInt
  rw [h2, Int.zero_mul, h3]

theorem listContacts_table_page1 (stamp : Int → StoreTimestamp) (clock : Nat → Time)
    (limitQ : Option String) (t : Table) :
    (listContacts (tableStore stamp) clock (some "1") limitQ t).status = 200 ∧
    (listContacts (tableStore stamp) clock (some "1") limitQ t).contacts.length =
      min (effectiveLimit limitQ).toNat t.rows.length ∧
    (listContacts (tableStore stamp) clock (some "1") limitQ t).pagination =
      some ⟨1, totalPagesOf (t.rows.length : Int) (effectiveLimit limitQ), (t.rows.length : Int),
        effectiveLimit limitQ⟩ := by
  have hl := effectiveLimit_range limitQ
  have hp1 : effectivePage (some "1") = 1 := by decide
  obtain ⟨cs, h1, h2, -⟩ := listContacts_all_ok (tableStore stamp) clock (some "1") limitQ t
    (t.rows.length : Int)
    ⟨((selectPage t (effectiveLimit limitQ)
        (offsetOf (effectivePage (some "1")) (effectiveLimit limitQ))).map StoredRow.scan).map some,
      false⟩
    ((selectPage t (effectiveLimit limitQ)
        (offsetOf (effectivePage (some "1")) (effectiveLimit limitQ))).map StoredRow.scan)
    rfl rfl rfl rfl
  rw [h1]
  refine ⟨rfl, ?_, ?_⟩
  · show (elems cs).length = _
    rw [h2, length_zipWith_range, offsetOf_page1, List.length_map]
    unfold selectPage limitOffset orderByCreatedAtDesc
    simp only [Int.toNat_zero, List.drop_zero]
    rw [if_neg (by omega), List.length_take, List.length_insertionSort]
  · show some _ = some _
    rw [hp1]

/-- C7, as stated, fails for N above 100: after 101 successful insertions into the empty
table, the listing with `limit=101`, `page=1` falls back to the limit 10 and returns 10
items (with `total_items` 101 and 11 pages), not 101. -/
theorem C7_counterexample_101 :
    toString (101 : Nat) = "101" ∧
    (List.replicate 101 (Except.ok ⟨0, "Ana", "ana@example.org", "hola", ⟨0⟩⟩ :
      Except String Contact)).length = 101 ∧
    (listContacts (tableStore (fun _ => noon)) (fun _ => ⟨0⟩) (some "1")
      (some "101")
      (createAll (tableStore (fun _ => noon))
        (List.replicate 101 (Except.ok ⟨0, "Ana", "ana@example.org", "hola", ⟨0⟩⟩))
        Table.empty)).contacts.length = 10 ∧
    (listContacts (tableStore (fun _ => noon)) (fun _ => ⟨0⟩) (some "1")
      (some "101")
      (createAll (tableStore (fun _ => noon))
        (List.replicate 101 (Except.ok ⟨0, "Ana", "ana@example.org", "hola", ⟨0⟩⟩))
        Table.empty)).pagination = some ⟨1, 11, 101, 10⟩ := by
  have hlen : (createAll (tableStore (fun _ => noon))
        (List.replicate 101 (Except.ok ⟨0, "Ana", "ana@example.org", "hola", ⟨0⟩⟩))
        Table.empty).rows.length = 101 := by
    rw [createAll_table_length]
    · simp [Table.empty]
    · intro b hb
      rw [List.eq_of_mem_replicate hb]
      exact ⟨_, rfl, by decide, by decide, by decide⟩
  have hlim : effectiveLimit (some "101") = 10 := by decide
  have h := listContacts_table_page1 (fun _ => noon) (fun _ => ⟨0⟩) (some "101")
    (createAll (tableStore (fun _ => noon))
        (List.replicate 101 (Except.ok ⟨0, "Ana", "ana@example.org", "hola", ⟨0⟩⟩))
        Table.empty)
  rw [hlen, hlim] at h
  refine ⟨by decide, by simp, ?_, ?_⟩
  · rw [h.2.1]
    decide
  · rw [h.2.2]
    decide

/-- C7, amended. For every N up to 100, starting from the empty table, after N
successful `createContact` insertions (bodies with the three fields non-empty, on a
store that does not fail) the listing with `limit=N` (N in decimal) and `page=1` is a
200 response with exactly N items and `total_items` equal to N. -/
theorem C7_insert_then_list (stamp : Int → StoreTimestamp) (clock : Nat → Time)
    (bodies : List (Except String Contact))
    (hvalid : ∀ b ∈ bodies, ∃ c : Contact,
      b = Except.ok c ∧ c.Name ≠ "" ∧ c.Email ≠ "" ∧ c.Message ≠ "")
    (hN : bodies.length ≤ 100) :
    (listContacts (tableStore stamp) clock (some "1") (some (toString bodies.length))
      (createAll (tableStore stamp) bodies Table.empty)).status = 200 ∧
    (listContacts (tableStore stamp) clock (some "1") (some (toString bodies.length))
      (createAll (tableStore stamp) bodies Table.empty)).contacts.length = bodies.length ∧
    (listContacts (tableStore stamp) clock (some "1") (some (toString bodies.length))
      (createAll (tableStore stamp) bodies Table.empty)).pagination.map
        (fun p => p.total_items) = some (bodies.length : Int) := by
  have hlen : (createAll (tableStore stamp) bodies Table.empty).rows.length = bodies.length := by
    rw [createAll_table_length stamp bodies Table.empty hvalid]
    simp [Table.empty]
  have h := listContacts_table_page1 stamp clock (some (toString bodies.length))
    (createAll (tableStore stamp) bodies Table.empty)
  rw [hlen] at h
  refine ⟨h.1, ?_, ?_⟩
  · rw [h.2.1]
    have hl := effectiveLimit_range (some (toString bodies.length))
    by_cases h0 : bodies.length = 0
    · omega
    · have hlim : effectiveLimit (some (toString bodies.length)) = (bodies.length : Int) := by
        unfold effectiveLimit DefaultQuery
        simp only [Atoi_toString_small bodies.length hN]
        rw [if_neg (by omega)]
      rw [hlim]
      simp
  · rw [h.2.2]
    rfl

/-- C7 for three insertions: the listing with `limit=3`, `page=1` has three items and
`total_items` 3. -/
theorem C7_insert_then_list_witness :
    (listContacts (tableStore (fun _ => noon)) (fun _ => ⟨0⟩) (some "1")
      (some (toString (List.replicate 3 (Except.ok ⟨0, "Ana", "ana@example.org", "hola", ⟨0⟩⟩ :
        Except String Contact)).length))
      (createAll (tableStore (fun _ => noon))
        (List.replicate 3 (Except.ok ⟨0, "Ana", "ana@example.org", "hola", ⟨0⟩⟩))
        Table.empty)).contacts.length =
      (List.replicate 3 (Except.ok ⟨0, "Ana", "ana@example.org", "hola", ⟨0⟩⟩ :
        Except String Contact)).length :=
  (C7_insert_then_list (fun _ => noon) (fun _ => ⟨0⟩)
    (List.replicate 3 (Except.ok ⟨0, "Ana", "ana@example.org", "hola", ⟨0⟩⟩))
    (fun b hb => by
      rw [List.eq_of_mem_replicate hb]
      exact ⟨_, rfl, by decide, by decide, by decide⟩)
    (by decide)).2.1

/-! ## Calendar arithmetic -/

theorem isLeap_iff (y : Nat) :
    isLeap y = true ↔ (y % 4 = 0 ∧ (y % 100 ≠ 0 ∨ y % 400 = 0)) := by
  unfold isLeap
  simp

theorem daysBeforeYear_succ (y : Nat) :
    daysBeforeYear (y + 1) = daysBeforeYear y + 365 + (if isLeap y then 1 else 0) := by
  have hl := isLeap_iff y
  unfold daysBeforeYear
  by_cases h : isLeap y = true
  · rw [if_pos h]
    have := hl.mp h
    omega
  · rw [if_neg h]
    have h2 := mt hl.mpr h
    have h3 : y % 4 ≠ 0 ∨ (y % 100 = 0 ∧ y % 400 ≠ 0) := by omega
    clear h2 hl h
    rcases h3 with h3 | ⟨h3, h4⟩
    · have h5 : (y + 1 + 3) / 4 = (y + 3) / 4 := by omega
      have h6 : (y + 1 + 99) / 100 = (y + 99) / 100 := by omega
      have h7 : (y + 1 + 399) / 400 = (y + 399) / 400 := by omega
      rw [h5, h6, h7]
      omega
    · have h5 : (y + 1 + 3) / 4 = (y + 3) / 4 + 1 := by omega
      have h6 : (y + 1 + 99) / 100 = (y + 99) / 100 + 1 := by omega
      have h7 : (y + 1 + 399) / 400 = (y + 399) / 400 := by omega
      have h8 : (y + 99) / 100 ≤ (y + 3) / 4 := by omega
      rw [h5, h6, h7]
      omega
theorem daysBeforeYear_mono (y y2 : Nat) (h : y ≤ y2) : daysBeforeYear y ≤ daysBeforeYear y2 := by
  induction y2 with
  | zero =>
    have : y = 0 := by omega
    rw [this]
  | succ n ih =>
    by_cases hy : y = n + 1
    · rw [hy]
    · have := ih (by omega)
      rw [daysBeforeYear_succ]
      omega

theorem dayOfYear_lt (y mo d : Nat) (hm1 : 1 ≤ mo) (hm2 : mo ≤ 12) (hd : d ≤ daysIn mo y) :
    daysBefore mo + (if isLeap y && decide (3 ≤ mo) then 1 else 0) + (d - 1)
      < 365 + (if isLeap y then 1 else 0) := by
  unfold daysIn at hd
  by_cases hl : isLeap y = true <;> interval_cases mo <;>
    simp [daysBefore, hl] at hd ⊢ <;> omega

theorem dayOfYear_month_lt (y mo mo2 d d2 : Nat) (hm1 : 1 ≤ mo) (hm : mo < mo2) (hm2 : mo2 ≤ 12)
    (hd : d ≤ daysIn mo y) :
    daysBefore mo + (if isLeap y && decide (3 ≤ mo) then 1 else 0) + (d - 1)
      < daysBefore mo2 + (if isLeap y && decide (3 ≤ mo2) then 1 else 0) + (d2 - 1) := by
  unfold daysIn at hd
  have hm3 : mo ≤ 11 := by omega
  by_cases hl : isLeap y = true <;> interval_cases mo <;> interval_cases mo2 <;>
    simp [daysBefore, hl] at hd ⊢ <;> omega

theorem daysSinceZero_year_lt (y y2 mo mo2 d d2 : Nat) (hy : y < y2) (hm1 : 1 ≤ mo)
    (hm2 : mo ≤ 12) (hd : d ≤ daysIn mo y) :
    daysSinceZero y mo d < daysSinceZero y2 mo2 d2 := by
  have h1 := dayOfYear_lt y mo d hm1 hm2 hd
  have h2 := daysBeforeYear_succ y
  have h3 := daysBeforeYear_mono (y + 1) y2 (by omega)
  unfold daysSinceZero
  omega

/-! ## Timestamps of the form `YYYY-MM-DD HH:MM:SS` -/

theorem isDigitChar_bounds (c : Char) (h : isDigitChar c = true) : 48 ≤ c.toNat ∧ c.toNat ≤ 57 := by
  unfold isDigitChar at h
  simpa using h

theorem isDigitChar_ne_space (c : Char) (h : isDigitChar c = true) : (c == ' ') = false := by
  have hb := isDigitChar_bounds c h
  rw [beq_eq_false_iff_ne]
  intro hc
  rw [hc] at hb
  have : (' ' : Char).toNat = 32 := by decide
  omega

theorem ltChars_cons_false (a b : Char) (as bs : List Char) :
    ltChars (a :: as) (b :: bs) = false ↔
      b.toNat < a.toNat ∨ (a.toNat = b.toNat ∧ ltChars as bs = false) := by
  simp only [ltChars]
  by_cases h1 : a.toNat < b.toNat
  · simp only [if_pos h1]
    constructor
    · intro h
      cases h
    · intro h
      omega
  · by_cases h2 : b.toNat < a.toNat
    · simp only [if_neg h1, if_pos h2]
      constructor
      · intro _
        exact Or.inl h2
      · intro _
        trivial
    · simp only [if_neg h1, if_neg h2]
      constructor
      · intro h
        exact Or.inr ⟨by omega, h⟩
      · intro h
        rcases h with h | h
        · omega
        · exact h.2

theorem parseChars_stamp (y1 y2 y3 y4 m1 m2 d1 d2 h1 h2 n1 n2 s1 s2 : Char)
    (hy1 : isDigitChar y1 = true) (hy2 : isDigitChar y2 = true) (hy3 : isDigitChar y3 = true)
    (hy4 : isDigitChar y4 = true) (hm1 : isDigitChar m1 = true) (hm2 : isDigitChar m2 = true)
    (hd1 : isDigitChar d1 = true) (hd2 : isDigitChar d2 = true) (hh1 : isDigitChar h1 = true)
    (hh2 : isDigitChar h2 = true) (hn1 : isDigitChar n1 = true) (hn2 : isDigitChar n2 = true)
    (hs1 : isDigitChar s1 = true) (hs2 : isDigitChar s2 = true)
    (hmo1 : 1 ≤ (m1.toNat - 48) * 10 + (m2.toNat - 48))
    (hmo2 : (m1.toNat - 48) * 10 + (m2.toNat - 48) ≤ 12)
    (hda1 : 1 ≤ (d1.toNat - 48) * 10 + (d2.toNat - 48))
    (hda2 : (d1.toNat - 48) * 10 + (d2.toNat - 48) ≤
      daysIn ((m1.toNat - 48) * 10 + (m2.toNat - 48))
        ((y1.toNat - 48) * 1000 + (y2.toNat - 48) * 100 + (y3.toNat - 48) * 10 + (y4.toNat - 48)))
    (hho : (h1.toNat - 48) * 10 + (h2.toNat - 48) < 24)
    (hmi : (n1.toNat - 48) * 10 + (n2.toNat - 48) < 60)
    (hse : (s1.toNat - 48) * 10 + (s2.toNat - 48) < 60) :
    parseChars Layout.dateTime
        [y1, y2, y3, y4, '-', m1, m2, '-', d1, d2, ' ', h1, h2, ':', n1, n2, ':', s1, s2] =
      some (Date ((y1.toNat - 48) * 1000 + (y2.toNat - 48) * 100 + (y3.toNat - 48) * 10 + (y4.toNat - 48))
        ((m1.toNat - 48) * 10 + (m2.toNat - 48)) ((d1.toNat - 48) * 10 + (d2.toNat - 48))
        ((h1.toNat - 48) * 10 + (h2.toNat - 48)) ((n1.toNat - 48) * 10 + (n2.toNat - 48))
        ((s1.toNat - 48) * 10 + (s2.toNat - 48)) 0 0) := by
  have hsp := isDigitChar_ne_space h1 hh1
  have e1 : parseDateFields
      [y1, y2, y3, y4, '-', m1, m2, '-', d1, d2, ' ', h1, h2, ':', n1, n2, ':', s1, s2] =
      some ((y1.toNat - 48) * 1000 + (y2.toNat - 48) * 100 + (y3.toNat - 48) * 10 + (y4.toNat - 48),
        (m1.toNat - 48) * 10 + (m2.toNat - 48), (d1.toNat - 48) * 10 + (d2.toNat - 48),
        [' ', h1, h2, ':', n1, n2, ':', s1, s2]) := by
    have hmo : ¬ ((m1.toNat - 48) * 10 + (m2.toNat - 48) = 0 ∨
        12 < (m1.toNat - 48) * 10 + (m2.toNat - 48)) := by omega
    simp [parseDateFields, parseLongYear, skip, skipAux, getnum, hy1, hy2, hy3, hy4, hm1, hm2,
      hd1, hd2]
    omega
  have e2 : skip [' ', h1, h2, ':', n1, n2, ':', s1, s2] [Layout.dateTime.separator] =
      some [h1, h2, ':', n1, n2, ':', s1, s2] := by
    simp [skip, skipAux, Layout.separator, cutspace, hsp]
  have e3 : parseClockFields [h1, h2, ':', n1, n2, ':', s1, s2] =
      some ((h1.toNat - 48) * 10 + (h2.toNat - 48), (n1.toNat - 48) * 10 + (n2.toNat - 48),
        (s1.toNat - 48) * 10 + (s2.toNat - 48), 0, []) := by
    have g1 : ¬ (24 ≤ (h1.toNat - 48) * 10 + (h2.toNat - 48)) := by omega
    have g2 : ¬ (60 ≤ (n1.toNat - 48) * 10 + (n2.toNat - 48)) := by omega
    have g3 : ¬ (60 ≤ (s1.toNat - 48) * 10 + (s2.toNat - 48)) := by omega
    simp [parseClockFields, skip, skipAux, getnum, parseFraction, hh1, hh2, hn1, hn2, hs1, hs2,
      g1, g2, g3]
  have g4 : ¬ ((d1.toNat - 48) * 10 + (d2.toNat - 48) < 1 ∨
      daysIn ((m1.toNat - 48) * 10 + (m2.toNat - 48))
        ((y1.toNat - 48) * 1000 + (y2.toNat - 48) * 100 + (y3.toNat - 48) * 10 + (y4.toNat - 48))
        < (d1.toNat - 48) * 10 + (d2.toNat - 48)) := by omega
  unfold parseChars
  simp only [e1, e2, e3, parseZoneOf, ne_eq, not_true_eq_false, if_false, if_neg g4]

theorem Date_le_of_fields (y mo d h n s y2 mo2 d2 h2 n2 s2 : Nat)
    (hmo1 : 1 ≤ mo) (hmo2 : mo ≤ 12) (hd : d ≤ daysIn mo y) (hd1 : 1 ≤ d)
    (hmo3 : 1 ≤ mo2) (hmo4 : mo2 ≤ 12) (hd2 : d2 ≤ daysIn mo2 y2) (hd3 : 1 ≤ d2)
    (hh : h < 24) (hn : n < 60) (hs : s < 60) (hh2 : h2 < 24) (hn2 : n2 < 60) (hs2 : s2 < 60)
    (hlex : y < y2 ∨ (y = y2 ∧ (mo < mo2 ∨ (mo = mo2 ∧ (d < d2 ∨
      (d = d2 ∧ h * 3600 + n * 60 + s ≤ h2 * 3600 + n2 * 60 + s2)))))) :
    (Date y mo d h n s 0 0).nanos ≤ (Date y2 mo2 d2 h2 n2 s2 0 0).nanos := by
  have key : daysSinceZero y mo d * 86400 + (h * 3600 + n * 60 + s) ≤
      daysSinceZero y2 mo2 d2 * 86400 + (h2 * 3600 + n2 * 60 + s2) := by
    rcases hlex with hy | ⟨hy, hrest⟩
    · have := daysSinceZero_year_lt y y2 mo mo2 d d2 hy hmo1 hmo2 hd
      omega
    · subst hy
      rcases hrest with hm | ⟨hm, hrest⟩
      · have := dayOfYear_month_lt y mo mo2 d d2 hmo1 hm hmo4 hd
        unfold daysSinceZero
        omega
      · subst hm
        rcases hrest with hdd | ⟨hdd, hrest⟩
        · unfold daysSinceZero
          omega
        · subst hdd
          omega
  unfold Date
  simp only
  omega

theorem stamp_order (a b : List Char) (ha : isStoreTimestampChars a = true)
    (hb : isStoreTimestampChars b = true) (hlt : ltChars a b = false) :
    ∃ ta tb, parseChars Layout.dateTime a = some ta ∧ parseChars Layout.dateTime b = some tb ∧
      tb.nanos ≤ ta.nanos := by
  unfold isStoreTimestampChars at ha hb
  split at ha
  swap
  · cases ha
  split at hb
  swap
  · cases hb
  simp only [Bool.and_eq_true, beq_iff_eq, decide_eq_true_eq] at ha hb
  obtain ⟨⟨⟨⟨⟨⟨⟨⟨⟨⟨⟨⟨⟨⟨⟨⟨⟨⟨⟨⟨⟨⟨⟨⟨⟨ay1, ay2⟩, ay3⟩, ay4⟩, am1⟩, am2⟩, ad1⟩, ad2⟩, ah1⟩, ah2⟩, an1⟩, an2⟩,
    as1⟩, as2⟩, ac1⟩, ac2⟩, ac3⟩, ac4⟩, ac5⟩, amo1⟩, amo2⟩, ada1⟩, ada2⟩, aho⟩, ami⟩, ase⟩ := ha
  obtain ⟨⟨⟨⟨⟨⟨⟨⟨⟨⟨⟨⟨⟨⟨⟨⟨⟨⟨⟨⟨⟨⟨⟨⟨⟨by1, by2⟩, by3⟩, by4⟩, bm1⟩, bm2⟩, bd1⟩, bd2⟩, bh1⟩, bh2⟩, bn1⟩, bn2⟩,
    bs1⟩, bs2⟩, bc1⟩, bc2⟩, bc3⟩, bc4⟩, bc5⟩, bmo1⟩, bmo2⟩, bda1⟩, bda2⟩, bho⟩, bmi⟩, bse⟩ := hb
  subst ac1 ac2 ac3 ac4 ac5 bc1 bc2 bc3 bc4 bc5
  refine ⟨_, _, parseChars_stamp _ _ _ _ _ _ _ _ _ _ _ _ _ _ ay1 ay2 ay3 ay4 am1 am2 ad1 ad2 ah1 ah2
    an1 an2 as1 as2 amo1 amo2 ada1 ada2 aho ami ase,
    parseChars_stamp _ _ _ _ _ _ _ _ _ _ _ _ _ _ by1 by2 by3 by4 bm1 bm2 bd1 bd2 bh1 bh2
    bn1 bn2 bs1 bs2 bmo1 bmo2 bda1 bda2 bho bmi bse, ?_⟩
  apply Date_le_of_fields _ _ _ _ _ _ _ _ _ _ _ _ bmo1 bmo2 bda2 bda1 amo1 amo2 ada2 ada1
    bho bmi bse aho ami ase
  have hnil : ltChars [] [] = false := rfl
  simp only [ltChars_cons_false, hnil, and_true, lt_self_iff_false, false_or, true_and] at hlt
  have ay1 := isDigitChar_bounds _ ay1
  have ay2 := isDigitChar_bounds _ ay2
  have ay3 := isDigitChar_bounds _ ay3
  have ay4 := isDigitChar_bounds _ ay4
  have am1 := isDigitChar_bounds _ am1
  have am2 := isDigitChar_bounds _ am2
  have ad1 := isDigitChar_bounds _ ad1
  have ad2 := isDigitChar_bounds _ ad2
  have ah1 := isDigitChar_bounds _ ah1
  have ah2 := isDigitChar_bounds _ ah2
  have an1 := isDigitChar_bounds _ an1
  have an2 := isDigitChar_bounds _ an2
  have as1 := isDigitChar_bounds _ as1
  have as2 := isDigitChar_bounds _ as2
  have by1 := isDigitChar_bounds _ by1
  have by2 := isDigitChar_bounds _ by2
  have by3 := isDigitChar_bounds _ by3
  have by4 := isDigitChar_bounds _ by4
  have bm1 := isDigitChar_bounds _ bm1
  have bm2 := isDigitChar_bounds _ bm2
  have bd1 := isDigitChar_bounds _ bd1
  have bd2 := isDigitChar_bounds _ bd2
  have bh1 := isDigitChar_bounds _ bh1
  have bh2 := isDigitChar_bounds _ bh2
  have bn1 := isDigitChar_bounds _ bn1
  have bn2 := isDigitChar_bounds _ bn2
  have bs1 := isDigitChar_bounds _ bs1
  have bs2 := isDigitChar_bounds _ bs2
  clear amo1 amo2 ada1 ada2 bmo1 bmo2 bda1 bda2
  omega

theorem parseChars_stamp_rfc3339 (y1 y2 y3 y4 m1 m2 d1 d2 h1 h2 n1 n2 s1 s2 : Char)
    (hy1 : isDigitChar y1 = true) (hy2 : isDigitChar y2 = true) (hy3 : isDigitChar y3 = true)
    (hy4 : isDigitChar y4 = true) (hm1 : isDigitChar m1 = true) (hm2 : isDigitChar m2 = true)
    (hd1 : isDigitChar d1 = true) (hd2 : isDigitChar d2 = true) (hh1 : isDigitChar h1 = true)
    (hh2 : isDigitChar h2 = true) (hn1 : isDigitChar n1 = true) (hn2 : isDigitChar n2 = true)
    (hs1 : isDigitChar s1 = true) (hs2 : isDigitChar s2 = true)
    (hmo1 : 1 ≤ (m1.toNat - 48) * 10 + (m2.toNat - 48))
    (hmo2 : (m1.toNat - 48) * 10 + (m2.toNat - 48) ≤ 12)
    (hda1 : 1 ≤ (d1.toNat - 48) * 10 + (d2.toNat - 48))
    (hda2 : (d1.toNat - 48) * 10 + (d2.toNat - 48) ≤
      daysIn ((m1.toNat - 48) * 10 + (m2.toNat - 48))
        ((y1.toNat - 48) * 1000 + (y2.toNat - 48) * 100 + (y3.toNat - 48) * 10 + (y4.toNat - 48)))
    (hho : (h1.toNat - 48) * 10 + (h2.toNat - 48) < 24)
    (hmi : (n1.toNat - 48) * 10 + (n2.toNat - 48) < 60)
    (hse : (s1.toNat - 48) * 10 + (s2.toNat - 48) < 60) :
    parseChars Layout.dateTime
        [y1, y2, y3, y4, '-', m1, m2, '-', d1, d2, 'T', h1, h2, ':', n1, n2, ':', s1, s2, 'Z'] =
      none ∧
    parseChars Layout.rfc3339
        [y1, y2, y3, y4, '-', m1, m2, '-', d1, d2, 'T', h1, h2, ':', n1, n2, ':', s1, s2, 'Z'] =
      some (Date ((y1.toNat - 48) * 1000 + (y2.toNat - 48) * 100 + (y3.toNat - 48) * 10 + (y4.toNat - 48))
        ((m1.toNat - 48) * 10 + (m2.toNat - 48)) ((d1.toNat - 48) * 10 + (d2.toNat - 48))
        ((h1.toNat - 48) * 10 + (h2.toNat - 48)) ((n1.toNat - 48) * 10 + (n2.toNat - 48))
        ((s1.toNat - 48) * 10 + (s2.toNat - 48)) 0 0) := by
  have e1 : parseDateFields
      [y1, y2, y3, y4, '-', m1, m2, '-', d1, d2, 'T', h1, h2, ':', n1, n2, ':', s1, s2, 'Z'] =
      some ((y1.toNat - 48) * 1000 + (y2.toNat - 48) * 100 + (y3.toNat - 48) * 10 + (y4.toNat - 48),
        (m1.toNat - 48) * 10 + (m2.toNat - 48), (d1.toNat - 48) * 10 + (d2.toNat - 48),
        ['T', h1, h2, ':', n1, n2, ':', s1, s2, 'Z']) := by
    simp [parseDateFields, parseLongYear, skip, skipAux, getnum, hy1, hy2, hy3, hy4, hm1, hm2,
      hd1, hd2]
    omega
  have e2 : skip ['T', h1, h2, ':', n1, n2, ':', s1, s2, 'Z'] [Layout.dateTime.separator] =
      none := by
    simp [skip, skipAux, Layout.separator]
  have e3 : skip ['T', h1, h2, ':', n1, n2, ':', s1, s2, 'Z'] [Layout.rfc3339.separator] =
      some [h1, h2, ':', n1, n2, ':', s1, s2, 'Z'] := by
    simp [skip, skipAux, Layout.separator]
  have e4 : parseClockFields [h1, h2, ':', n1, n2, ':', s1, s2, 'Z'] =
      some ((h1.toNat - 48) * 10 + (h2.toNat - 48), (n1.toNat - 48) * 10 + (n2.toNat - 48),
        (s1.toNat - 48) * 10 + (s2.toNat - 48), 0, ['Z']) := by
    have g1 : ¬ (24 ≤ (h1.toNat - 48) * 10 + (h2.toNat - 48)) := by omega
    have g2 : ¬ (60 ≤ (n1.toNat - 48) * 10 + (n2.toNat - 48)) := by omega
    have g3 : ¬ (60 ≤ (s1.toNat - 48) * 10 + (s2.toNat - 48)) := by omega
    simp [parseClockFields, skip, skipAux, getnum, parseFraction, hh1, hh2, hn1, hn2, hs1, hs2,
      g1, g2, g3]
  have e5 : parseZoneOf Layout.rfc3339 ['Z'] = some (0, []) := by
    simp [parseZoneOf, parseZone]
  have g4 : ¬ ((d1.toNat - 48) * 10 + (d2.toNat - 48) < 1 ∨
      daysIn ((m1.toNat - 48) * 10 + (m2.toNat - 48))
        ((y1.toNat - 48) * 1000 + (y2.toNat - 48) * 100 + (y3.toNat - 48) * 10 + (y4.toNat - 48))
        < (d1.toNat - 48) * 10 + (d2.toNat - 48)) := by omega
  constructor
  · unfold parseChars
    simp only [e1, e2]
  · unfold parseChars
    simp only [e1, e3, e4, e5, ne_eq, not_true_eq_false, if_false, if_neg g4]

/-- The handler reads a timestamp of the store as the same instant whether `rows.Scan`
hands it over as stored or as the RFC 3339 text of the driver. -/
theorem parseCreatedAt_stamp_forms (st : String) (h : isStoreTimestamp st = true) (t : Time)
    (ht : parseChars Layout.dateTime st.data = some t) (now : Time) (text : String)
    (hx : text = st ∨ text = rfc3339Text st) : parseCreatedAt now text = t := by
  rcases hx with hx | hx
  · subst hx
    unfold parseCreatedAt timeParse
    simp only [ht]
  · subst hx
    unfold isStoreTimestamp isStoreTimestampChars at h
    split at h
    swap
    · cases h
    rename_i x y1 y2 y3 y4 c1 m1 m2 c2 d1 d2 c3 h1 h2 c4 n1 n2 c5 s1 s2 heq
    simp only [Bool.and_eq_true, beq_iff_eq, decide_eq_true_eq] at h
    obtain ⟨⟨⟨⟨⟨⟨⟨⟨⟨⟨⟨⟨⟨⟨⟨⟨⟨⟨⟨⟨⟨⟨⟨⟨⟨ay1, ay2⟩, ay3⟩, ay4⟩, am1⟩, am2⟩, ad1⟩, ad2⟩, ah1⟩, ah2⟩, an1⟩,
      an2⟩, as1⟩, as2⟩, ac1⟩, ac2⟩, ac3⟩, ac4⟩, ac5⟩, amo1⟩, amo2⟩, ada1⟩, ada2⟩, aho⟩, ami⟩, ase⟩ := h
    subst ac1 ac2 ac3 ac4 ac5
    have e0 := parseChars_stamp _ _ _ _ _ _ _ _ _ _ _ _ _ _ ay1 ay2 ay3 ay4 am1 am2 ad1 ad2 ah1 ah2
      an1 an2 as1 as2 amo1 amo2 ada1 ada2 aho ami ase
    obtain ⟨e1, e2⟩ := parseChars_stamp_rfc3339 _ _ _ _ _ _ _ _ _ _ _ _ _ _ ay1 ay2 ay3 ay4 am1 am2
      ad1 ad2 ah1 ah2 an1 an2 as1 as2 amo1 amo2 ada1 ada2 aho ami ase
    rw [heq] at ht
    rw [e0] at ht
    have hdata : (rfc3339Text st).data =
        [y1, y2, y3, y4, '-', m1, m2, '-', d1, d2, 'T', h1, h2, ':', n1, n2, ':', s1, s2, 'Z'] := by
      show List.take 10 st.data ++ 'T' :: (List.drop 11 st.data ++ ['Z']) = _
      rw [heq]
      rfl
    unfold parseCreatedAt timeParse
    rw [hdata]
    simp only [e1, e2]
    exact Option.some.inj ht

/-! ## Order of the listing -/

theorem contactOfRow_stamp_order (now1 now2 : Time) (a b : String) (ra rb : RawRow)
    (ha : isStoreTimestamp a = true) (hb : isStoreTimestamp b = true) (hge : textGe a b)
    (hra : ra.created_at = a ∨ ra.created_at = rfc3339Text a)
    (hrb : rb.created_at = b ∨ rb.created_at = rfc3339Text b) :
    (contactOfRow now2 rb).CreatedAt.nanos ≤ (contactOfRow now1 ra).CreatedAt.nanos := by
  obtain ⟨ta, tb, h1, h2, h3⟩ := stamp_order a.data b.data ha hb hge
  have e1 : (contactOfRow now1 ra).CreatedAt = ta :=
    parseCreatedAt_stamp_forms a ha ta h1 now1 ra.created_at hra
  have e2 : (contactOfRow now2 rb).CreatedAt = tb :=
    parseCreatedAt_stamp_forms b hb tb h2 now2 rb.created_at hrb
  rw [e1, e2]
  exact h3

theorem chain_zipWith_contactOfRow (clock : Nat → Time) (stored : List String)
    (rs : List RawRow) (i : Nat)
    (hread : List.Forall₂ (fun st r => r.created_at = st ∨ r.created_at = rfc3339Text st)
      stored rs)
    (hsorted : List.Chain' textGe stored)
    (hstamp : ∀ st ∈ stored, isStoreTimestamp st = true) :
    List.Chain' (fun a b : Contact => b.CreatedAt.nanos ≤ a.CreatedAt.nanos)
      (List.zipWith (fun k r => contactOfRow (clock k) r) (List.range' i rs.length) rs) := by
  induction hread generalizing i with
  | nil => simp
  | @cons a ra stored1 rs1 hra hrest ih =>
    cases hrest with
    | nil => simp [List.range']
    | @cons b rb stored2 rs2 hrb hrest2 =>
      have h2 := ih (i + 1) (List.chain'_cons.mp hsorted).2
        (fun st hst => hstamp st (List.mem_cons_of_mem _ hst))
      simp only [List.length_cons, List.range', List.zipWith_cons_cons] at h2 ⊢
      refine List.chain'_cons.mpr ⟨?_, h2⟩
      exact contactOfRow_stamp_order _ _ a b ra rb (hstamp a (List.mem_cons_self _ _))
        (hstamp b (List.mem_cons_of_mem _ (List.mem_cons_self _ _)))
        (List.chain'_cons.mp hsorted).1 hra hrb

/-- C8, as stated, fails when a row's `created_at` is in neither format. The table holds
a row stamped `2024-06-01 12:00:00` by the store and a row whose `created_at` is the
text `01/06/2024 12:00`; the store returns them in descending order of the stored text,
the first before the second, the first handed to `rows.Scan` as
`2024-06-01T12:00:00Z`. The second row gets the clock reading, here 2026-11-01
00:00:00, so in the response the earlier item's `created_at` is smaller than the later
item's. -/
theorem C8_counterexample_unparsable_row :
    textLt "2024-06-01 12:00:00" "01/06/2024 12:00" = false ∧
    (tableStore (fun _ => noon)).queryPage foreignRows 10 0 =
      some ⟨[some ⟨2, "Eva", "eva@example.org", "hi", "2024-06-01T12:00:00Z"⟩,
        some ⟨1, "Ana", "ana@example.org", "hola", "01/06/2024 12:00"⟩], false⟩ ∧
    listContacts (tableStore (fun _ => noon)) (fun _ => Date 2026 11 1 0 0 0 0 0) none none
        foreignRows =
      ⟨200, Body.listing
        (some [⟨2, "Eva", "eva@example.org", "hi", ⟨63884462400000000000⟩⟩,
          ⟨1, "Ana", "ana@example.org", "hola", ⟨63960710400000000000⟩⟩])
        ⟨1, 1, 2, 10⟩⟩ ∧
    ¬ List.Chain' (fun a b : Contact => b.CreatedAt.nanos ≤ a.CreatedAt.nanos)
      (listContacts (tableStore (fun _ => noon)) (fun _ => Date 2026 11 1 0 0 0 0 0) none none
        foreignRows).contacts := by
  have h3 : listContacts (tableStore (fun _ => noon)) (fun _ => Date 2026 11 1 0 0 0 0 0) none
        none foreignRows =
      ⟨200, Body.listing
        (some [⟨2, "Eva", "eva@example.org", "hi", ⟨63884462400000000000⟩⟩,
          ⟨1, "Ana", "ana@example.org", "hola", ⟨63960710400000000000⟩⟩])
        ⟨1, 1, 2, 10⟩⟩ := by decide
  refine ⟨by decide, by decide, h3, ?_⟩
  rw [h3]
  simp [Response.contacts, elems]

/-- C8, amended. In every successful `listContacts` response, given that the store
returns the rows in descending order of the stored `created_at` text and that every
returned row's stored `created_at` is a valid `YYYY-MM-DD HH:MM:SS` timestamp (the form
the column default `CURRENT_TIMESTAMP` writes), which `rows.Scan` hands to the handler in
the RFC 3339 form `YYYY-MM-DDTHH:MM:SSZ` of the driver or as stored, the items are in
non-increasing `created_at` order: each item's `created_at`, as returned to the client,
is greater than or equal to that of the item after it. -/
theorem C8_order_for_store_timestamps {σ : Type} (db : Store σ) (clock : Nat → Time)
    (pageQ limitQ : Option String) (s : σ) (total : Int) (rows : Rows) (rs : List RawRow)
    (stored : List String)
    (hc : db.queryCount s = some total)
    (hq : db.queryPage s (effectiveLimit limitQ)
      (offsetOf (effectivePage pageQ) (effectiveLimit limitQ)) = some rows)
    (hs : rows.scans = rs.map some) (he : rows.iterErr = false)
    (hread : List.Forall₂ (fun st r => r.created_at = st ∨ r.created_at = rfc3339Text st)
      stored rs)
    (hsorted : List.Chain' textGe stored)
    (hstamp : ∀ st ∈ stored, isStoreTimestamp st = true) :
    (listContacts db clock pageQ limitQ s).status = 200 ∧
    List.Chain' (fun a b : Contact => b.CreatedAt.nanos ≤ a.CreatedAt.nanos)
      (listContacts db clock pageQ limitQ s).contacts := by
  obtain ⟨cs, h1, h2, -⟩ := listContacts_all_ok db clock pageQ limitQ s total rows rs hc hq hs he
  rw [h1]
  refine ⟨rfl, ?_⟩
  show List.Chain' _ (elems cs)
  rw [h2, List.range_eq_range']
  exact chain_zipWith_contactOfRow clock stored rs 0 hread hsorted hstamp

/-- C8 on a table with three rows stamped by the store, which the driver hands over as
RFC 3339 text: the listing is ordered. -/
theorem C8_order_for_store_timestamps_witness :
    List.Chain' (fun a b : Contact => b.CreatedAt.nanos ≤ a.CreatedAt.nanos)
      (listContacts (tableStore (fun _ => noon)) (fun _ => ⟨0⟩) none none threeRows).contacts :=
  (C8_order_for_store_timestamps (tableStore (fun _ => noon)) (fun _ => ⟨0⟩) none none
    threeRows 3
    ⟨[some ⟨2, "Eva", "eva@example.org", "hi", "2024-06-01T12:00:00Z"⟩,
      some ⟨1, "Ana", "ana@example.org", "hola", "2024-05-31T23:59:59Z"⟩,
      some ⟨3, "Noa", "noa@example.org", "hey", "2023-12-31T08:30:00Z"⟩], false⟩
    [⟨2, "Eva", "eva@example.org", "hi", "2024-06-01T12:00:00Z"⟩,
      ⟨1, "Ana", "ana@example.org", "hola", "2024-05-31T23:59:59Z"⟩,
      ⟨3, "Noa", "noa@example.org", "hey", "2023-12-31T08:30:00Z"⟩]
    ["2024-06-01 12:00:00", "2024-05-31 23:59:59", "2023-12-31 08:30:00"]
    rfl (by decide) rfl rfl
    (List.Forall₂.cons (Or.inr (by decide)) (List.Forall₂.cons (Or.inr (by decide))
      (List.Forall₂.cons (Or.inr (by decide)) List.Forall₂.nil)))
    (List.chain'_cons.mpr ⟨by decide, List.chain'_cons.mpr ⟨by decide, List.chain'_singleton _⟩⟩)
    (by decide)).2

/-! ## The in-memory table returns its pages in descending order -/

theorem ltChars_nil_left (b : List Char) (h : ltChars [] b = false) : b = [] := by
  cases b with
  | nil => rfl
  | cons y bs => simp [ltChars] at h

theorem ltChars_total (a b : List Char) : ltChars a b = false ∨ ltChars b a = false := by
  induction a generalizing b with
  | nil =>
    cases b with
    | nil => exact Or.inl rfl
    | cons y bs => exact Or.inr rfl
  | cons x as ih =>
    cases b with
    | nil => exact Or.inl rfl
    | cons y bs =>
      rw [ltChars_cons_false, ltChars_cons_false]
      rcases Nat.lt_trichotomy x.toNat y.toNat with h | h | h
      · exact Or.inr (Or.inl h)
      · rcases ih bs with h2 | h2
        · exact Or.inl (Or.inr ⟨h, h2⟩)
        · exact Or.inr (Or.inr ⟨h.symm, h2⟩)
      · exact Or.inl (Or.inl h)

theorem ltChars_trans (a b c : List Char) (hab : ltChars a b = false)
    (hbc : ltChars b c = false) : ltChars a c = false := by
  induction a generalizing b c with
  | nil =>
    have hb := ltChars_nil_left b hab
    subst hb
    exact hbc
  | cons x as ih =>
    cases c with
    | nil => rfl
    | cons z cs =>
      cases b with
      | nil => simp [ltChars] at hbc
      | cons y bs =>
        rw [ltChars_cons_false] at hab hbc ⊢
        rcases hab with h1 | ⟨h1, h1r⟩
        · rcases hbc with h2 | ⟨h2, _⟩
          · exact Or.inl (by omega)
          · exact Or.inl (by omega)
        · rcases hbc with h2 | ⟨h2, h2r⟩
          · exact Or.inl (by omega)
          · exact Or.inr ⟨by omega, ih bs cs h1r h2r⟩

theorem createdAtGe_isTotal : IsTotal StoredRow createdAtGe :=
  ⟨fun a b => ltChars_total a.created_at.data b.created_at.data⟩

theorem createdAtGe_isTrans : IsTrans StoredRow createdAtGe :=
  ⟨fun a b c hab hbc => ltChars_trans a.created_at.data b.created_at.data c.created_at.data hab hbc⟩

/-- Every page the in-memory table selects is in descending order of the stored
`created_at`, and its rows are rows of the table. -/
theorem selectPage_descending (t : Table) (limit offset : Int) :
    List.Chain' createdAtGe (selectPage t limit offset) ∧
      (∀ r ∈ selectPage t limit offset, r ∈ t.rows) := by
  have hsub : (selectPage t limit offset).Sublist (orderByCreatedAtDesc t.rows) := by
    unfold selectPage limitOffset
    simp only
    split
    · exact List.drop_sublist _ _
    · exact (List.take_sublist _ _).trans (List.drop_sublist _ _)
  constructor
  · haveI := createdAtGe_isTotal
    haveI := createdAtGe_isTrans
    have hsorted : List.Pairwise createdAtGe (orderByCreatedAtDesc t.rows) :=
      List.sorted_insertionSort createdAtGe t.rows
    exact List.Pairwise.chain' (List.Pairwise.sublist hsub hsorted)
  · intro r hr
    exact (List.perm_insertionSort createdAtGe t.rows).subset (hsub.subset hr)

/-- On the in-memory table, when every stored `created_at` is a timestamp of the store,
every listing is a 200 response whose items are in non-increasing `created_at` order. -/
theorem tableStore_listing_ordered (stamp : Int → StoreTimestamp) (clock : Nat → Time)
    (pageQ limitQ : Option String) (t : Table)
    (hstamp : ∀ r ∈ t.rows, isStoreTimestamp r.created_at = true) :
    (listContacts (tableStore stamp) clock pageQ limitQ t).status = 200 ∧
    List.Chain' (fun a b : Contact => b.CreatedAt.nanos ≤ a.CreatedAt.nanos)
      (listContacts (tableStore stamp) clock pageQ limitQ t).contacts := by
  obtain ⟨hsorted, hmem⟩ := selectPage_descending t (effectiveLimit limitQ)
    (offsetOf (effectivePage pageQ) (effectiveLimit limitQ))
  obtain ⟨cs, h1, h2, -⟩ := listContacts_all_ok (tableStore stamp) clock pageQ limitQ t
    (t.rows.length : Int)
    ⟨((selectPage t (effectiveLimit limitQ)
      (offsetOf (effectivePage pageQ) (effectiveLimit limitQ))).map StoredRow.scan).map some, false⟩
    ((selectPage t (effectiveLimit limitQ)
      (offsetOf (effectivePage pageQ) (effectiveLimit limitQ))).map StoredRow.scan)
    rfl rfl rfl rfl
  rw [h1]
  refine ⟨rfl, ?_⟩
  show List.Chain' _ (elems cs)
  rw [h2, List.range_eq_range']
  refine chain_zipWith_contactOfRow clock
    ((selectPage t (effectiveLimit limitQ)
      (offsetOf (effectivePage pageQ) (effectiveLimit limitQ))).map (fun r => r.created_at))
    _ 0 ?_ ?_ ?_
  · rw [List.forall₂_map_left_iff, List.forall₂_map_right_iff, List.forall₂_same]
    intro r hr
    refine Or.inr ?_
    show scanText r.created_at = _
    unfold scanText
    rw [if_pos (hstamp r (hmem r hr))]
  · rw [List.chain'_map]
    exact hsorted
  · intro st hst
    obtain ⟨r, hr, rfl⟩ := List.mem_map.mp hst
    exact hstamp r (hmem r hr)

end ContactMeBack
